import Mathlib

/-!
Shallow embedding of the bebek-ai-backend TypeScript sources.

Conventions used throughout this development:
* ISO-8601 timestamp strings produced by `new Date().toISOString()` are
  abstracted as natural numbers (`Nat`); `Date.parse` on such a stored
  timestamp is the identity of that number.
* External calls (Gemini HTTP API, fal.ai `fal.subscribe`, image download,
  `JSON.parse`) are modelled as oracle functions supplied in an environment
  structure; the repository's own logic around them is translated directly.
* JavaScript string primitives (`toLowerCase`, `trim`, `includes`,
  `startsWith`, `slice`) are modelled on the character lists underlying
  Lean strings, so that every definition evaluates by kernel reduction.
* `uuidv4()`, Firestore generated document ids and wall-clock reads are
  modelled as indexed supplies in the environment.
-/

namespace Bebek

/-- Substring search on character lists (JS `String.prototype.includes`). -/
def listIncludes (hay pat : List Char) : Bool :=
  if decide (hay.take pat.length = pat) then true
  else
    match hay with
    | [] => false
    | _ :: t => listIncludes t pat

/-- JS `s.includes(pat)`. -/
def jsIncludes (s pat : String) : Bool :=
  listIncludes s.data pat.data

/-- JS `s.toLowerCase()` (ASCII; the two agree on ASCII input). -/
def jsToLowerCase (s : String) : String :=
  String.mk (s.data.map Char.toLower)

/-- JS `s.trim()`: strip leading and trailing whitespace. -/
def jsTrim (s : String) : String :=
  String.mk (((s.data.dropWhile Char.isWhitespace).reverse.dropWhile
    Char.isWhitespace).reverse)

/-- JS `s.startsWith(p)`, modelled on code points. -/
def strStartsWith (s p : String) : Bool :=
  decide (s.data.take p.data.length = p.data)

/-- JS `s.slice(n)`: drop the first n characters. -/
def strDropChars (s : String) (n : Nat) : String :=
  String.mk (s.data.drop n)

/-- JS `value || fallback` on an optional string (empty string is falsy). -/
def jsOrStr (v : Option String) (fallback : String) : String :=
  match v with
  | none => fallback
  | some s => if s = "" then fallback else s

/-- Minimal model of a JavaScript/JSON value, used for untyped provider
payloads and request-body fields. `Option Json` with `none` plays the role
of `undefined`. -/
inductive Json where
  | null
  | bool (b : Bool)
  | num (n : Int)
  | str (s : String)
  | arr (items : List Json)
  | obj (fields : List (String × Json))
deriving Repr

/-- JS truthiness of a JSON value. -/
def Json.truthy : Json → Bool
  | .null => false
  | .bool b => b
  | .num n => n != 0
  | .str s => s != ""
  | .arr _ => true
  | .obj _ => true

/-- Optional-chaining field access `v?.field`. -/
def Json.getField : Json → String → Option Json
  | .obj fields, key => fields.lookup key
  | _, _ => none

/-- Optional-chaining field access on an optional value. -/
def jsGet (v : Option Json) (key : String) : Option Json :=
  match v with
  | none => none
  | some j => j.getField key

/-- Optional-chaining index access `v?.[i]`. -/
def jsIndex (v : Option Json) (i : Nat) : Option Json :=
  match v with
  | some (.arr items) => items.get? i
  | _ => none

/-- Truthiness of a possibly-undefined value. -/
def jsTruthyOpt (v : Option Json) : Bool :=
  match v with
  | none => false
  | some j => j.truthy

/-- JS `a || b || ...`: first truthy value of the chain (falsy final values
collapse to `none`, which is how every use in the sources consumes them). -/
def jsOrChain (candidates : List (Option Json)) : Option Json :=
  candidates.findSome? (fun c => if jsTruthyOpt c then c else none)

/-- The guard `typeof direct === 'string' && direct.trim().length > 0`
followed by `direct.trim()`. -/
def jsNonEmptyTrimmedString (v : Option Json) : Option String :=
  match v with
  | some (.str s) => if jsTrim s = "" then none else some (jsTrim s)
  | _ => none

/-! ### chatService.ts: shouldRefuseCoachRequest -/

/-- `COACH_REFUSAL_MESSAGE` from src/server/bebek/services/chatService.ts. -/
def COACH_REFUSAL_MESSAGE : String :=
  "Bu istegi burada dogrudan yerine getiremiyorum, alternatif bir yol onerebilirim."

/-- `disallowedFileTypes` list inside `shouldRefuseCoachRequest`. -/
def disallowedFileTypes : List String :=
  ["pdf", "doc", "docx", "word", "ppt", "pptx", "powerpoint"]

/-- `createVerbs` list inside `shouldRefuseCoachRequest`. -/
def createVerbs : List String :=
  ["oluştur", "üret", "generate", "create", "yap", "tasarla", "çiz", "yaz"]

/-- `targets` list inside `shouldRefuseCoachRequest`. -/
def refusalTargets : List String :=
  ["görsel", "resim", "image", "logo", "video", "kod", "code", "script",
   "website", "web sitesi", "uygulama", "app"]

/-- `shouldRefuseCoachRequest` from chatService.ts. -/
def shouldRefuseCoachRequest (message : String) : Bool :=
  let lower := jsToLowerCase message
  if lower = "" then false
  else if disallowedFileTypes.any (fun t => jsIncludes lower t) then true
  else
    let hasCreateVerb := createVerbs.any (fun verb => jsIncludes lower verb)
    let hasTarget := refusalTargets.any (fun target => jsIncludes lower target)
    hasCreateVerb && hasTarget

/-! ### geminiService.ts: buildGeminiContents -/

/-- `ChatHistoryItem` from geminiService.ts. -/
structure ChatHistoryItem where
  role : String
  content : String
deriving Repr, DecidableEq

/-- `InlineImagePayload` from geminiService.ts. -/
structure InlineImagePayload where
  data : String
  mimeType : String
deriving Repr, DecidableEq

/-- One element of a Gemini `parts` array: either a text part or an
inline-data part. -/
structure GeminiPart where
  text : Option String := none
  inlineData : Option InlineImagePayload := none
deriving Repr, DecidableEq

/-- One element of a Gemini `contents` array. -/
structure GeminiContent where
  role : String
  parts : List GeminiPart
deriving Repr, DecidableEq

/-- `const role = item.role === 'assistant' ? 'model' : 'user'`. -/
def geminiRoleOf (item : ChatHistoryItem) : String :=
  if item.role = "assistant" then "model" else "user"

/-- The `if (item.content) parts.push({ text: item.content })` step. -/
def geminiTextParts (item : ChatHistoryItem) : List GeminiPart :=
  if item.content ≠ "" then [{ text := some item.content }] else []

/-- The `if (image && isLast && role === 'user') parts.push({ inlineData })`
step, where `isLast` is `index === history.length - 1`. -/
def geminiImageParts (total : Nat) (image : Option InlineImagePayload)
    (index : Nat) (role : String) : List GeminiPart :=
  match image with
  | some img =>
      if index = total - 1 && role = "user" then [{ inlineData := some img }]
      else []
  | none => []

/-- Body of `history.map((item, index) => ...)` in `buildGeminiContents`,
including the `if (!parts.length)` placeholder push. -/
def buildGeminiItem (total : Nat) (image : Option InlineImagePayload)
    (index : Nat) (item : ChatHistoryItem) : GeminiContent :=
  let role := geminiRoleOf item
  let parts := geminiTextParts item ++ geminiImageParts total image index role
  { role := role
    parts :=
      if parts.isEmpty then [{ text := some "Kullanıcı bir görsel paylaştı." }]
      else parts }

/-- `buildGeminiContents` from geminiService.ts. -/
def buildGeminiContents (history : List ChatHistoryItem)
    (image : Option InlineImagePayload) : List GeminiContent :=
  (List.range history.length).zip history
    |>.map (fun p => buildGeminiItem history.length image p.1 p.2)

/-! ### Lemmas about buildGeminiContents -/

theorem buildGeminiContents_length (h : List ChatHistoryItem)
    (img : Option InlineImagePayload) :
    (buildGeminiContents h img).length = h.length := by
  simp [buildGeminiContents]

theorem buildGeminiContents_getElem (h : List ChatHistoryItem)
    (img : Option InlineImagePayload) (i : Nat) (hh : i < h.length)
    (hi : i < (buildGeminiContents h img).length) :
    (buildGeminiContents h img)[i] = buildGeminiItem h.length img i h[i] := by
  simp [buildGeminiContents]

theorem buildGeminiItem_role (t : Nat) (img : Option InlineImagePayload)
    (i : Nat) (item : ChatHistoryItem) :
    (buildGeminiItem t img i item).role = geminiRoleOf item := rfl

theorem buildGeminiItem_parts_ne_nil (t : Nat) (img : Option InlineImagePayload)
    (i : Nat) (item : ChatHistoryItem) :
    (buildGeminiItem t img i item).parts ≠ [] := by
  simp only [buildGeminiItem]
  split
  · simp
  · next hne => simpa [List.isEmpty_iff] using hne

theorem buildGeminiItem_inline (t : Nat) (img : Option InlineImagePayload)
    (i : Nat) (item : ChatHistoryItem) (p : GeminiPart)
    (hp : p ∈ (buildGeminiItem t img i item).parts)
    (hinl : p.inlineData.isSome) :
    img.isSome ∧ i = t - 1 ∧ geminiRoleOf item = "user" := by
  simp only [buildGeminiItem] at hp
  split at hp
  · simp only [List.mem_singleton] at hp
    subst hp
    simp at hinl
  · rcases List.mem_append.mp hp with hmem | hmem
    · exfalso
      simp only [geminiTextParts] at hmem
      split at hmem <;> simp_all
    · cases img with
      | none => simp [geminiImageParts] at hmem
      | some im =>
        simp only [geminiImageParts] at hmem
        split at hmem
        · next hcond =>
          simp only [Bool.and_eq_true, decide_eq_true_eq] at hcond
          exact ⟨rfl, hcond.1, hcond.2⟩
        · simp at hmem

theorem buildGeminiItem_placeholder (t : Nat) (img : Option InlineImagePayload)
    (i : Nat) (item : ChatHistoryItem) (hc : item.content = "")
    (himg : geminiImageParts t img i (geminiRoleOf item) = []) :
    (buildGeminiItem t img i item).parts =
      [{ text := some "Kullanıcı bir görsel paylaştı." }] := by
  simp [buildGeminiItem, geminiTextParts, hc, himg]

/-- C10: buildGeminiContents preserves history shape: the output list has
the same length as the input; each output element has a non-empty parts
list; the placeholder text part appears exactly when the item has no
content and no inline image part applies; an element's role is 'model'
exactly when the input role is 'assistant' and 'user' otherwise; and an
inline image part occurs only at the last history index with mapped role
'user' (and only when an image was supplied). -/
theorem buildGeminiContents_preserves_history_shape
    (history : List ChatHistoryItem) (image : Option InlineImagePayload) :
    (buildGeminiContents history image).length = history.length ∧
    ∀ (i : Nat) (hh : i < history.length)
      (hi : i < (buildGeminiContents history image).length),
      (buildGeminiContents history image)[i].parts ≠ [] ∧
      ((buildGeminiContents history image)[i].role = "model" ↔
        history[i].role = "assistant") ∧
      ((buildGeminiContents history image)[i].role = "user" ↔
        ¬ history[i].role = "assistant") ∧
      (∀ p ∈ (buildGeminiContents history image)[i].parts,
        p.inlineData.isSome →
          image.isSome ∧ i = history.length - 1 ∧
          (buildGeminiContents history image)[i].role = "user") ∧
      (history[i].content = "" →
        geminiImageParts history.length image i (geminiRoleOf history[i]) = [] →
          (buildGeminiContents history image)[i].parts =
            [{ text := some "Kullanıcı bir görsel paylaştı." }]) := by
  refine ⟨buildGeminiContents_length history image, ?_⟩
  intro i hh hi
  rw [buildGeminiContents_getElem history image i hh hi]
  refine ⟨buildGeminiItem_parts_ne_nil _ _ _ _, ?_, ?_, ?_, ?_⟩
  · rw [buildGeminiItem_role]
    unfold geminiRoleOf
    split <;> simp_all
  · rw [buildGeminiItem_role]
    unfold geminiRoleOf
    split <;> simp_all
  · intro p hp hinl
    obtain ⟨h1, h2, h3⟩ := buildGeminiItem_inline _ _ _ _ p hp hinl
    exact ⟨h1, h2, by rw [buildGeminiItem_role]; exact h3⟩
  · intro hc himg
    exact buildGeminiItem_placeholder _ _ _ _ hc himg

/-- Witness for C10 at a concrete two-item history with an image. -/
theorem buildGeminiContents_preserves_history_shape_witness :
    (buildGeminiContents
        [⟨"user", "selam"⟩, ⟨"assistant", ""⟩]
        (some ⟨"QUJD", "image/png"⟩)).length = 2 ∧
    (buildGeminiContents
        [⟨"user", "selam"⟩, ⟨"assistant", ""⟩]
        (some ⟨"QUJD", "image/png"⟩))[1].parts ≠ [] ∧
    ((buildGeminiContents
        [⟨"user", "selam"⟩, ⟨"assistant", ""⟩]
        (some ⟨"QUJD", "image/png"⟩))[1].role = "model" ↔
      ([⟨"user", "selam"⟩, (⟨"assistant", ""⟩ : ChatHistoryItem)])[1].role
        = "assistant") := by
  obtain ⟨hlen, hrest⟩ := buildGeminiContents_preserves_history_shape
    [⟨"user", "selam"⟩, ⟨"assistant", ""⟩] (some ⟨"QUJD", "image/png"⟩)
  obtain ⟨hne, hrole, _⟩ := hrest 1 (by decide) (by rw [hlen]; decide)
  exact ⟨hlen, hne, hrole⟩

/-- `LIFESTYLE_IDENTITY_SUFFIX` from src/routes/styles.ts. -/
def LIFESTYLE_IDENTITY_SUFFIX : String :=
  "Use the uploaded baby photo as the ONLY identity reference. Keep the same baby face and identity exactly: face shape, eyes, nose, lips, skin tone, and baby proportions must stay the same. Preserve eye state exactly (open stays open, closed stays closed) and keep the same facial expression. Do not create a new baby. Place this same baby naturally into the requested scene and style. Ultra-realistic family lifestyle photography."

/-- `NEWBORN_IDENTITY_SUFFIX` from src/routes/styles.ts. -/
def NEWBORN_IDENTITY_SUFFIX : String :=
  "Use the uploaded baby photo as the ONLY identity reference. Keep the same baby face and identity exactly: face shape, eyes, nose, lips, skin tone, and baby proportions must stay the same. Preserve eye state exactly (open stays open, closed stays closed) and keep the same facial expression. Do not create a new baby. Place this same baby naturally into the requested newborn setup and style. Ultra-realistic newborn photography."

/-- `STUDIO_IDENTITY_SUFFIX` from src/routes/styles.ts. -/
def STUDIO_IDENTITY_SUFFIX : String :=
  "Use the uploaded baby photo as the ONLY identity reference. Keep the same baby face and identity exactly: face shape, eyes, nose, lips, skin tone, and baby proportions must stay the same. Preserve eye state exactly (open stays open, closed stays closed) and keep the same facial expression. Do not create a new baby. Place this same baby naturally into the requested studio scene and style. Ultra-realistic newborn photography."

/-- `WEDDING_IDENTITY_SUFFIX` from src/routes/styles.ts. -/
def WEDDING_IDENTITY_SUFFIX : String :=
  "Use mother and father uploaded photos as the ONLY identity references. Keep both faces and identities exactly, preserve facial structure and skin tone, and place both naturally into the wedding template scene. Ultra-realistic wedding photography."

/-- `COUPLE_IDENTITY_SUFFIX` from src/routes/styles.ts. -/
def COUPLE_IDENTITY_SUFFIX : String :=
  "Use two uploaded person photos as the ONLY identity references. Keep both faces and identities exactly, preserve facial structure and skin tone, and place both naturally into the couple template scene. Ultra-realistic couple photography."

/-- `FRAMING_SUFFIX` from src/routes/styles.ts. -/
def FRAMING_SUFFIX : String :=
  "Use medium-shot framing with camera slightly farther from subjects. Keep faces fully visible and sharp. Do not crop faces."

/-- `STYLE_PROMPT_BY_ID` from src/routes/styles.ts, as a partial lookup
(`Record<string, string>` access returning undefined for absent keys). -/
def STYLE_PROMPT_BY_ID : String → Option String
  | "l1" => some ("Vertical 9:16 elegant family portrait with baby, luxury classic interior, neutral beige tones, soft cinematic lighting, parents wearing modern formal clothing, baby centered, high fashion lifestyle photography, photorealistic, editorial style " ++ LIFESTYLE_IDENTITY_SUFFIX)
  | "l2" => some ("Vertical portrait 9:16 happy family holding baby in modern living room, warm natural light, emotional candid moment, lifestyle photography, realistic skin tones, soft focus background, premium editorial look, cozy home atmosphere " ++ LIFESTYLE_IDENTITY_SUFFIX)
  | "l3" => some ("Vertical 9:16 baby in stroller with parents walking in colorful neon city night background, cinematic urban atmosphere, glowing lights, realistic street photography style, vibrant colors, shallow depth of field, modern lifestyle aesthetic " ++ LIFESTYLE_IDENTITY_SUFFIX)
  | "l4" => some ("Vertical portrait 9:16 mother holding baby while sitting at a stylish cafe table, warm natural light, modern urban lifestyle photography, cinematic depth of field, realistic skin tones " ++ LIFESTYLE_IDENTITY_SUFFIX)
  | "l5" => some ("Vertical 9:16 baby walking with parent in a green park during golden hour sunset, cinematic warm lighting, lifestyle photography aesthetic, natural candid moment " ++ LIFESTYLE_IDENTITY_SUFFIX)
  | "l6" => some ("Vertical portrait baby walking with parents along a calm beach shoreline, soft pastel sunset sky, natural candid lifestyle photo, photorealistic, airy composition " ++ LIFESTYLE_IDENTITY_SUFFIX)
  | "l7" => some ("Vertical 9:16 baby sitting near glass balcony with city skyline background, modern apartment lifestyle, soft daylight, minimal luxury aesthetic " ++ LIFESTYLE_IDENTITY_SUFFIX)
  | "l8" => some ("Vertical 9:16 close-up baby and parent selfie style shot, handheld camera feeling, vlog lifestyle aesthetic, natural candid expression, cinematic mobile photography look " ++ LIFESTYLE_IDENTITY_SUFFIX)
  | "l9" => some ("Vertical 9:16 lifestyle family portrait with mother, father, toddler child and baby sitting together on a cozy sofa, modern Scandinavian living room, soft natural daylight, candid happy moment, ultra realistic photography, cinematic depth of field " ++ LIFESTYLE_IDENTITY_SUFFIX)
  | "l10" => some ("Vertical family lifestyle photo of parents walking in a green park holding toddler while baby is in stroller, golden hour sunlight, natural candid atmosphere, warm cinematic tones " ++ LIFESTYLE_IDENTITY_SUFFIX)
  | "l11" => some ("Vertical lifestyle family scene with parents sitting on floor playing with toddler while baby lies on soft blanket, bright playroom environment, cozy candid mood " ++ LIFESTYLE_IDENTITY_SUFFIX)
  | "l12" => some ("Vertical 9:16 family birthday celebration scene, baby near cake, parents and child smiling together, warm festive lighting, candid lifestyle photography " ++ LIFESTYLE_IDENTITY_SUFFIX)
  | "s1" => some ("Gokkusagi konseptinde profesyonel studio cekimi, temiz kompozisyon, vivid colors. " ++ STUDIO_IDENTITY_SUFFIX)
  | "n1" => some ("Vertical 9:16 newborn baby sleeping wrapped in deep navy swaddle, lying on a crescent moon prop with small star decorations, soft studio lighting, dreamy night sky background, professional newborn photography style, pastel cinematic tones, ultra realistic, cozy atmosphere " ++ NEWBORN_IDENTITY_SUFFIX)
  | "n2" => some ("Vertical portrait 9:16 newborn baby wrapped in white fabric, lying on fluffy soft white fur background, minimalistic newborn photography studio setup, soft diffused lighting, clean white aesthetic, photorealistic, gentle shadows, calm peaceful mood " ++ NEWBORN_IDENTITY_SUFFIX)
  | "n3" => some ("Vertical 9:16 sleeping newborn baby wrapped in beige blanket, warm cozy studio environment, soft neutral background tones, bakery-style warm aesthetic, natural soft light, realistic baby photography, gentle depth of field, peaceful mood " ++ NEWBORN_IDENTITY_SUFFIX)
  | "n4" => some ("Vertical 9:16 newborn baby sleeping wrapped in soft pastel fabric, lying on fluffy cloud-like pillows, dreamy soft studio lighting, minimal pastel background, professional newborn photography, ultra realistic skin detail, peaceful mood, shallow depth of field " ++ NEWBORN_IDENTITY_SUFFIX)
  | "n5" => some ("Vertical 9:16 newborn baby sleeping inside a soft floral nest, pastel flowers around, bright soft daylight studio lighting, spring aesthetic, ultra realistic newborn photography, gentle color palette " ++ NEWBORN_IDENTITY_SUFFIX)
  | "n6" => some ("Vertical portrait newborn baby wrapped in soft cream blanket, lying next to plush teddy bear, cozy warm studio environment, cinematic soft light, high detail newborn photography style " ++ NEWBORN_IDENTITY_SUFFIX)
  | "n7" => some ("Vertical 9:16 newborn baby sleeping on soft fabric with warm golden sunset lighting effect, cinematic glow, dreamy warm tones, realistic newborn portrait, professional studio composition " ++ NEWBORN_IDENTITY_SUFFIX)
  | "n8" => some ("Vertical newborn baby sleeping inside a small vintage basket, soft knitted blanket, warm neutral background, rustic newborn photography style, ultra detailed realistic baby portrait " ++ NEWBORN_IDENTITY_SUFFIX)
  | "n9" => some ("Vertical 9:16 newborn baby sleeping wrapped in deep navy fabric floating in a dreamy galaxy background, soft stars and nebula colors, cinematic cosmic lighting, ultra realistic newborn photography, magical atmosphere, high detail " ++ NEWBORN_IDENTITY_SUFFIX)
  | "n10" => some ("Vertical newborn baby sleeping on oversized plush toys, miniature toy world concept, colorful soft environment, dreamy cinematic lighting, ultra cute photorealistic newborn photography " ++ NEWBORN_IDENTITY_SUFFIX)
  | "n11" => some ("Vertical 9:16 newborn baby wrapped in pastel blanket floating with soft balloons, airy dreamy studio background, soft sunlight glow, high-end newborn photography style " ++ NEWBORN_IDENTITY_SUFFIX)
  | "n12" => some ("Vertical newborn baby sleeping on an open fairy tale book, magical soft glow, storybook fantasy style, warm cinematic lighting, whimsical newborn portrait " ++ NEWBORN_IDENTITY_SUFFIX)
  | "n13" => some ("Vertical 9:16 newborn baby sleeping on soft neutral desert-toned fabrics, minimal boho aesthetic, warm earthy colors, cinematic soft shadows, luxury newborn photography " ++ NEWBORN_IDENTITY_SUFFIX)
  | "n14" => some ("Vertical newborn baby styled as tiny astronaut, soft space-themed background, cinematic lighting, ultra cute futuristic newborn portrait, photorealistic " ++ NEWBORN_IDENTITY_SUFFIX)
  | _ => none

/-- `resolveStylePrompt` from src/routes/styles.ts. -/
def resolveStylePrompt (styleId : Option String) : Option String :=
  match styleId with
  | none => none
  | some sid =>
      if sid = "" then none
      else
        match STYLE_PROMPT_BY_ID sid with
        | none => none
        | some base => some (base ++ " " ++ FRAMING_SUFFIX)

/-! ### geminiService.ts: generateStyledPhoto and the /generate-photo route -/

/-- Result shape `{ data, mimeType, text }` returned by the photo
generation helpers. -/
structure GenResult where
  data : String
  mimeType : String
  text : Option String
deriving Repr, DecidableEq

/-- The `falInput` object built by `generateStyledPhoto`. -/
structure FalImageInput where
  prompt : String
  image_urls : List String
  image_size : String
  num_images : Nat
  max_images : Nat
  enhance_prompt_mode : String
  enable_safety_checker : Bool
deriving Repr, DecidableEq

/-- Environment for the fal.ai image-generation path: configuration read
from process.env plus oracles for `fal.subscribe` and the output download. -/
structure ImageGenEnv where
  falKey : Option String
  nodeEnvProduction : Bool
  falImageModelEnv : Option String
  falSubscribe : String → FalImageInput → Except String Json
  download : String → String × Option String

/-- `DEFAULT_FAL_IMAGE_MODEL = process.env.FAL_IMAGE_MODEL || 'fal-ai/bytedance/seedream/v4/edit'`. -/
def defaultFalImageModel (env : ImageGenEnv) : String :=
  jsOrStr env.falImageModelEnv "fal-ai/bytedance/seedream/v4/edit"

/-- `generateStyledPhoto` from geminiService.ts.  The second component is
the list of `fal.subscribe` calls issued (model and input). -/
def generateStyledPhoto (env : ImageGenEnv)
    (imageBase64 mimeType prompt : String) (model : Option String) :
    Except String GenResult × List (String × FalImageInput) :=
  let resolvedModel := jsOrStr model (defaultFalImageModel env)
  match env.falKey with
  | none =>
      let response : Except String GenResult :=
        if !env.nodeEnvProduction then
          .ok { data := imageBase64, mimeType := mimeType,
                text := some "Mock response used because FAL_KEY is missing" }
        else .error "FAL_KEY is not configured"
      (response, [])
  | some _ =>
      let sourceDataUri := "data:" ++ mimeType ++ ";base64," ++ imageBase64
      let falInput : FalImageInput :=
        { prompt := prompt, image_urls := [sourceDataUri],
          image_size := "portrait_16_9", num_images := 1, max_images := 1,
          enhance_prompt_mode := "standard", enable_safety_checker := true }
      let response : Except String GenResult :=
        match env.falSubscribe resolvedModel falInput with
        | .error e => .error e
        | .ok result =>
            match jsGet (jsIndex (jsGet (jsGet (some result) "data") "images") 0) "url" with
            | some (.str s) =>
                if s = "" then .error "FAL returned no output image URL"
                else
                  let downloaded := env.download s
                  .ok { data := downloaded.1,
                        mimeType := jsOrStr downloaded.2 "image/png",
                        text := none }
            | _ => .error "FAL returned no output image URL"
      (response, [(resolvedModel, falInput)])

/-- A multer upload; the in-memory buffer is modelled by its base64
rendering (`file.buffer.toString('base64')`). -/
structure MulterFile where
  base64 : String
  mimetype : Option String
deriving Repr, DecidableEq

/-- The parts of a POST /generate-photo request the handler reads. -/
structure GeneratePhotoRequest where
  authenticated : Bool
  file : Option MulterFile
  style_id : Option String
  request_id : Option String
  model : Option String
deriving Repr, DecidableEq

/-- Responses the /generate-photo handler can produce. -/
inductive PhotoRouteResponse where
  | accessDenied
  | invalidRequest (message : String)
  | ok (request_id : Option String) (style_id : Option String)
      (prompt : String) (imageData : String) (imageMime : String)
      (provider_text : Option String)
  | serverError (status : Nat) (error : String) (message : String)
deriving Repr, DecidableEq

/-- `generated.text || null`. -/
def jsOrNull (v : Option String) : Option String :=
  match v with
  | none => none
  | some s => if s = "" then none else some s

/-- The POST /generate-photo handler from src/routes/styles.ts
(`createStylesRouter`), paired with the `fal.subscribe` calls it issues. -/
def generatePhotoRoute (env : ImageGenEnv) (req : GeneratePhotoRequest) :
    PhotoRouteResponse × List (String × FalImageInput) :=
  if !req.authenticated then (.accessDenied, [])
  else
    let stylePrompt := resolveStylePrompt req.style_id
    match req.file with
    | none => (.invalidRequest "image file is required", [])
    | some file =>
        match stylePrompt with
        | none =>
            (.invalidRequest
              ("A valid style_id is required (received: "
                ++ jsOrStr req.style_id "none" ++ ")"), [])
        | some p =>
            let gen := generateStyledPhoto env file.base64
              (jsOrStr file.mimetype "image/jpeg") p req.model
            match gen.1 with
            | .ok generated =>
                (.ok req.request_id req.style_id p generated.data
                  generated.mimeType (jsOrNull generated.text), gen.2)
            | .error e =>
                let lowered := jsToLowerCase e
                (if jsIncludes lowered "gemini_api_key" || jsIncludes lowered "fal_key"
                 then .serverError 503 "service_unavailable" e
                 else .serverError 500 "internal_error" e, gen.2)

theorem generateStyledPhoto_calls (env : ImageGenEnv)
    (imageBase64 mimeType prompt : String) (model : Option String) :
    (generateStyledPhoto env imageBase64 mimeType prompt model).2 =
      match env.falKey with
      | none => []
      | some _ =>
          [(jsOrStr model (defaultFalImageModel env),
            { prompt := prompt
              image_urls := ["data:" ++ mimeType ++ ";base64," ++ imageBase64]
              image_size := "portrait_16_9"
              num_images := 1
              max_images := 1
              enhance_prompt_mode := "standard"
              enable_safety_checker := true })] := by
  simp only [generateStyledPhoto]
  split <;> rfl

/-! ### C7 theorem -/

/-- C7: prompt-string assembly for styled photos is a total lookup with a
fixed suffix: resolveStylePrompt returns null for a missing style id or an
id not in STYLE_PROMPT_BY_ID and otherwise returns the mapped template
with the framing suffix appended; the /generate-photo route responds 400
invalid_request whenever resolveStylePrompt returns null, and otherwise
forwards exactly the assembled prompt to the provider and echoes it in the
response. -/
theorem resolveStylePrompt_total_lookup_and_route :
    resolveStylePrompt none = none ∧
    (∀ sid, STYLE_PROMPT_BY_ID sid = none → resolveStylePrompt (some sid) = none) ∧
    (∀ sid base, STYLE_PROMPT_BY_ID sid = some base →
      resolveStylePrompt (some sid) = some (base ++ " " ++ FRAMING_SUFFIX)) ∧
    (∀ (env : ImageGenEnv) (req : GeneratePhotoRequest),
      req.authenticated = true →
      resolveStylePrompt req.style_id = none →
        ∃ msg, (generatePhotoRoute env req).1 =
          PhotoRouteResponse.invalidRequest msg) ∧
    (∀ (env : ImageGenEnv) (req : GeneratePhotoRequest)
        (file : MulterFile) (p : String),
      req.authenticated = true → req.file = some file →
      resolveStylePrompt req.style_id = some p →
        (∀ c ∈ (generatePhotoRoute env req).2, (Prod.snd c).prompt = p) ∧
        (env.falKey.isSome → (generatePhotoRoute env req).2 =
          [(jsOrStr req.model (defaultFalImageModel env),
            { prompt := p
              image_urls :=
                ["data:" ++ jsOrStr file.mimetype "image/jpeg"
                  ++ ";base64," ++ file.base64]
              image_size := "portrait_16_9"
              num_images := 1
              max_images := 1
              enhance_prompt_mode := "standard"
              enable_safety_checker := true })]) ∧
        (∀ rid sid q d m t,
          (generatePhotoRoute env req).1 = PhotoRouteResponse.ok rid sid q d m t →
            q = p)) := by
  refine ⟨rfl, ?_, ?_, ?_, ?_⟩
  · intro sid h
    simp only [resolveStylePrompt]
    split
    · rfl
    · rw [h]
  · intro sid base h
    simp only [resolveStylePrompt]
    split
    · next hempty =>
        subst hempty
        have hnone : STYLE_PROMPT_BY_ID "" = none := rfl
        rw [hnone] at h
        exact Option.noConfusion h
    · rw [h]
  · intro env req hauth hnone
    simp only [generatePhotoRoute, hauth, Bool.not_true, Bool.false_eq_true,
      if_false]
    cases hf : req.file with
    | none => exact ⟨"image file is required", rfl⟩
    | some file =>
        rw [hnone]
        exact ⟨_, rfl⟩
  · intro env req file p hauth hfile hp
    have hroute2 : (generatePhotoRoute env req).2 =
        (generateStyledPhoto env file.base64
          (jsOrStr file.mimetype "image/jpeg") p req.model).2 := by
      simp only [generatePhotoRoute, hauth, Bool.not_true, Bool.false_eq_true,
        if_false, hfile, hp]
      split <;> rfl
    refine ⟨?_, ?_, ?_⟩
    · intro c hc
      rw [hroute2, generateStyledPhoto_calls] at hc
      split at hc
      · simp at hc
      · simp only [List.mem_singleton] at hc
        subst hc
        rfl
    · intro hkey
      rw [hroute2, generateStyledPhoto_calls]
      split
      · next hfk =>
          rw [hfk] at hkey
          simp at hkey
      · rfl
    · intro rid sid q d m t hok
      simp only [generatePhotoRoute, hauth, Bool.not_true, Bool.false_eq_true,
        if_false, hfile, hp] at hok
      split at hok
      · cases hok
        rfl
      · split at hok <;> cases hok

/-- Witness for C7: style id s1 resolves to its template plus the framing
suffix and the route forwards and echoes that prompt. -/
theorem resolveStylePrompt_total_lookup_and_route_witness :
    STYLE_PROMPT_BY_ID "s1" =
      some ("Gokkusagi konseptinde profesyonel studio cekimi, temiz kompozisyon, vivid colors. "
        ++ STUDIO_IDENTITY_SUFFIX) ∧
    resolveStylePrompt (some "s1") =
      some ("Gokkusagi konseptinde profesyonel studio cekimi, temiz kompozisyon, vivid colors. "
        ++ STUDIO_IDENTITY_SUFFIX ++ " " ++ FRAMING_SUFFIX) := by
  have h := (resolveStylePrompt_total_lookup_and_route.2.2.1) "s1"
    ("Gokkusagi konseptinde profesyonel studio cekimi, temiz kompozisyon, vivid colors. "
      ++ STUDIO_IDENTITY_SUFFIX) rfl
  exact ⟨rfl, h⟩


/-! ### src/routes/chat.ts: POST / validation -/

/-- The `image` object of a chat request body; fields are untyped JSON
values (`none` = the field is absent). -/
structure ChatImageBody where
  data : Option Json := none
  mimeType : Option Json := none

/-- The fields of `req.body` that the POST / chat handler reads.  `image =
none` covers both an absent and a falsy `image` field (both skip
validation and produce a null `imagePayload`). -/
structure ChatRequestBody where
  sessionId : Option String := none
  message : Option Json := none
  context : Option Json := none
  stream : Option Json := none
  image : Option ChatImageBody := none

/-- Arguments forwarded to `handleChatMessage` / `handleChatMessageStream`. -/
structure ChatHandlerArgs where
  sessionId : Option String
  message : Option Json
  context : Option Json
  imagePayload : Option ChatImageBody

/-- Outcome of the POST / chat route up to handler dispatch. -/
inductive ChatDispatch where
  | status401
  | status400 (error message : String)
  | toStream (args : ChatHandlerArgs)
  | toChat (args : ChatHandlerArgs)

/-- `typeof v === 'string'`. -/
def isStringVal (v : Option Json) : Bool :=
  match v with
  | some (.str _) => true
  | _ => false

/-- The combined image validation of the chat route: `image.data` and
`image.mimeType` are both strings and `image.mimeType` starts with
'image/'. -/
def chatImageOk (image : ChatImageBody) : Bool :=
  isStringVal image.data && isStringVal image.mimeType &&
    (match image.mimeType with
     | some (.str m) => strStartsWith m "image/"
     | _ => false)

/-- The POST / handler of `createChatRouter` from src/routes/chat.ts, up to
the dispatch into `handleChatMessage` / `handleChatMessageStream`. -/
def chatRoutePost (authenticated : Bool) (body : ChatRequestBody) :
    ChatDispatch :=
  if !authenticated then .status401
  else if !(jsTruthyOpt body.message) then
    .status400 "invalid_request" "message is required"
  else
    match body.image with
    | some image =>
        let isImagePayloadValid :=
          isStringVal image.data && isStringVal image.mimeType
        let mimeOk :=
          match image.mimeType with
          | some (.str m) => strStartsWith m "image/"
          | _ => false
        if !isImagePayloadValid || !mimeOk then
          .status400 "invalid_request" "Only image attachments are supported"
        else
          let args : ChatHandlerArgs :=
            { sessionId := body.sessionId, message := body.message,
              context := body.context, imagePayload := some image }
          if jsTruthyOpt body.stream then .toStream args else .toChat args
    | none =>
        let args : ChatHandlerArgs :=
          { sessionId := body.sessionId, message := body.message,
            context := body.context, imagePayload := none }
        if jsTruthyOpt body.stream then .toStream args else .toChat args

/-- Predicate: the dispatch reached one of the two chat handlers. -/
def ChatDispatch.reachesHandler : ChatDispatch → Prop
  | .toStream _ => True
  | .toChat _ => True
  | _ => False

/-- C6: the chat route validates requests before any chat handling:
POST / responds 400 invalid_request when the body has no (truthy) message;
with an image attachment present it responds 400 unless image.data and
image.mimeType are both strings and image.mimeType starts with 'image/';
and a request reaches handleChatMessage or handleChatMessageStream exactly
when both checks pass. -/
theorem chatRoutePost_validates_before_handling (body : ChatRequestBody) :
    (jsTruthyOpt body.message = false →
      chatRoutePost true body =
        ChatDispatch.status400 "invalid_request" "message is required") ∧
    (∀ image, body.image = some image → jsTruthyOpt body.message = true →
      chatImageOk image = false →
      chatRoutePost true body =
        ChatDispatch.status400 "invalid_request"
          "Only image attachments are supported") ∧
    ((chatRoutePost true body).reachesHandler ↔
      (jsTruthyOpt body.message = true ∧
        ∀ image, body.image = some image → chatImageOk image = true)) := by
  refine ⟨?_, ?_, ?_⟩
  · intro hmsg
    simp [chatRoutePost, hmsg]
  · intro image himg hmsg hbad
    simp only [chatRoutePost, himg, hmsg, Bool.not_true, Bool.false_eq_true,
      if_false, Bool.not_false, if_true]
    have hcond : (!(isStringVal image.data && isStringVal image.mimeType)
        || !(match image.mimeType with
             | some (.str m) => strStartsWith m "image/"
             | _ => false)) = true := by
      rw [← Bool.not_and]
      simp only [Bool.not_eq_true']
      exact hbad
    rw [hcond]
    rfl
  · constructor
    · intro hreach
      by_cases hmsg : jsTruthyOpt body.message = true
      · refine ⟨hmsg, ?_⟩
        intro image himg
        by_cases hok : chatImageOk image = true
        · exact hok
        · exfalso
          have hbad : chatImageOk image = false := by
            simpa using hok
          have hcond : (!(isStringVal image.data && isStringVal image.mimeType)
              || !(match image.mimeType with
                   | some (.str m) => strStartsWith m "image/"
                   | _ => false)) = true := by
            rw [← Bool.not_and]
            simp only [Bool.not_eq_true']
            exact hbad
          simp only [chatRoutePost, himg, hmsg, Bool.not_true,
            Bool.false_eq_true, if_false, hcond, if_true] at hreach
          exact hreach
      · exfalso
        have hmf : jsTruthyOpt body.message = false := by simpa using hmsg
        simp [chatRoutePost, hmf, ChatDispatch.reachesHandler] at hreach
    · rintro ⟨hmsg, himgok⟩
      cases himg : body.image with
      | none =>
          simp only [chatRoutePost, himg, hmsg, Bool.not_true,
            Bool.false_eq_true, if_false]
          split <;> exact trivial
      | some image =>
          have hok := himgok image himg
          have hcond : (!(isStringVal image.data && isStringVal image.mimeType)
              || !(match image.mimeType with
                   | some (.str m) => strStartsWith m "image/"
                   | _ => false)) = false := by
            rw [← Bool.not_and]
            simp only [Bool.not_eq_false']
            exact hok
          simp only [chatRoutePost, himg, hmsg, Bool.not_true,
            Bool.false_eq_true, if_false, hcond, if_true]
          split <;> exact trivial

/-- Witness for C6: a body with a message and an invalid image attachment
is rejected with 400. -/
theorem chatRoutePost_validates_before_handling_witness :
    chatRoutePost true
      { message := some (.str "merhaba"),
        image := some { data := some (.str "QUJD"), mimeType := some (.num 3) } } =
      ChatDispatch.status400 "invalid_request"
        "Only image attachments are supported" := by
  exact (chatRoutePost_validates_before_handling
      { message := some (.str "merhaba"),
        image := some { data := some (.str "QUJD"), mimeType := some (.num 3) } }).2.1
    { data := some (.str "QUJD"), mimeType := some (.num 3) } rfl (by decide) (by decide)


/-! ### part_000 (VEO variant of geminiService.ts): pollLongRunningOperation -/

/-- `operationName.startsWith('operations/') ? operationName :
operationName.replace(/^\/+/, '')`. -/
def normalizeOperationName (operationName : String) : String :=
  if strStartsWith operationName "operations/" then operationName
  else String.mk (operationName.data.dropWhile (fun c => c = Char.ofNat 47))

/-- Environment of the long-running-operation poller: the two
`process.env` knobs (already parsed by `Number(...)`, `none` = unset) and
an oracle giving the HTTP status and JSON body of the n-th GET of the
operation URL. -/
structure PollEnv where
  pollMaxEnv : Option Nat
  pollIntervalEnv : Option Nat
  responses : Nat → Int × Json

/-- `const maxPollCount = Number(process.env.GEMINI_VEO_POLL_MAX || 20)`. -/
def pollMaxCount (env : PollEnv) : Nat :=
  env.pollMaxEnv.getD 20

/-- `const pollIntervalMs = Number(process.env.GEMINI_VEO_POLL_INTERVAL_MS || 3000)`. -/
def pollIntervalMs (env : PollEnv) : Nat :=
  env.pollIntervalEnv.getD 3000

/-- Return shape of `pollLongRunningOperation`. -/
structure PollResult where
  ok : Bool
  status : Option Int
  data : Json
deriving Repr

/-- The `{ error: 'operation_timeout', ... }` payload returned after the
poll budget is exhausted. -/
def pollTimeoutData : Json :=
  .obj [("error", .str "operation_timeout"),
        ("message", .str "VEO operation polling timed out")]

/-- The `for (let attempt = 1; attempt <= maxPollCount; attempt += 1)` loop
of `pollLongRunningOperation`; `i` is the 0-based attempt index and `fuel`
the remaining attempts.  Besides the result it returns the number of GET
requests issued and the number of `sleep(pollIntervalMs)` calls made. -/
def pollLoop (responses : Nat → Int × Json) (i fuel : Nat) :
    PollResult × Nat × Nat :=
  match fuel with
  | 0 => (⟨false, none, pollTimeoutData⟩, 0, 0)
  | fuel + 1 =>
      let response := responses i
      if response.1 < 200 || response.1 ≥ 300 then
        (⟨false, some response.1, response.2⟩, 1, 0)
      else if jsTruthyOpt (response.2.getField "done") then
        (⟨true, some response.1, response.2⟩, 1, 0)
      else
        let rest := pollLoop responses (i + 1) fuel
        (rest.1, rest.2.1 + 1, rest.2.2 + 1)

/-- `pollLongRunningOperation` from the VEO variant of geminiService.ts
(src/unnamed/part_000), with its GET and sleep counts. -/
def pollLongRunningOperation (env : PollEnv) : PollResult × Nat × Nat :=
  pollLoop env.responses 0 (pollMaxCount env)

/-- A 2xx HTTP status. -/
def is2xx (status : Int) : Prop :=
  200 ≤ status ∧ status < 300

/-- The body\x27s `done` field is truthy. -/
def pollDone (body : Json) : Prop :=
  jsTruthyOpt (body.getField "done") = true

theorem pollLoop_requests_le (responses : Nat → Int × Json) (fuel : Nat) :
    ∀ i, (pollLoop responses i fuel).2.1 ≤ fuel := by
  induction fuel with
  | zero => intro i; simp [pollLoop]
  | succ fuel ih =>
      intro i
      simp only [pollLoop]
      split
      · simp
      · split
        · simp
        · have := ih (i + 1)
          simp only []
          omega

theorem pollLoop_exhausted (responses : Nat → Int × Json) (fuel : Nat) :
    ∀ i,
      (∀ k, k < fuel → is2xx ((responses (i + k)).1) ∧
        ¬ pollDone ((responses (i + k)).2)) →
      pollLoop responses i fuel = (⟨false, none, pollTimeoutData⟩, fuel, fuel) := by
  induction fuel with
  | zero => intro i _; rfl
  | succ fuel ih =>
      intro i hgood
      obtain ⟨h2xx, hnd⟩ := hgood 0 (Nat.succ_pos fuel)
      simp only [Nat.add_zero] at h2xx hnd
      have hcond : ((responses i).1 < 200 || (responses i).1 ≥ 300) = false := by
        simp only [Bool.or_eq_false_iff, decide_eq_false_iff_not]
        obtain ⟨hl, hr⟩ := h2xx
        omega
      have hdone : jsTruthyOpt (((responses i).2).getField "done") = false := by
        simp only [pollDone] at hnd
        simpa using hnd
      simp only [pollLoop, hcond, Bool.false_eq_true, if_false, hdone]
      have hrest := ih (i + 1) (fun k hk => by
        have := hgood (k + 1) (by omega)
        constructor
        · have h1 := this.1
          have : i + (k + 1) = i + 1 + k := by omega
          rwa [this] at h1
        · have h2 := this.2
          have : i + (k + 1) = i + 1 + k := by omega
          rwa [this] at h2)
      rw [hrest]

theorem pollLoop_first_done (responses : Nat → Int × Json) (n : Nat) :
    ∀ i fuel, n < fuel →
      (∀ k, k < n → is2xx ((responses (i + k)).1) ∧
        ¬ pollDone ((responses (i + k)).2)) →
      is2xx ((responses (i + n)).1) → pollDone ((responses (i + n)).2) →
      pollLoop responses i fuel =
        (⟨true, some (responses (i + n)).1, (responses (i + n)).2⟩, n + 1, n) := by
  induction n with
  | zero =>
      intro i fuel hfuel _ h2xx hdone
      match fuel, hfuel with
      | fuel + 1, _ =>
        simp only [Nat.add_zero] at h2xx hdone
        have hcond : ((responses i).1 < 200 || (responses i).1 ≥ 300) = false := by
          simp only [Bool.or_eq_false_iff, decide_eq_false_iff_not]
          obtain ⟨hl, hr⟩ := h2xx
          omega
        simp only [pollDone] at hdone
        simp [pollLoop, hcond, hdone]
  | succ n ih =>
      intro i fuel hfuel hgood h2xx hdone
      match fuel, hfuel with
      | fuel + 1, hfuel =>
        obtain ⟨h2xx0, hnd0⟩ := hgood 0 (Nat.succ_pos n)
        simp only [Nat.add_zero] at h2xx0 hnd0
        have hcond : ((responses i).1 < 200 || (responses i).1 ≥ 300) = false := by
          simp only [Bool.or_eq_false_iff, decide_eq_false_iff_not]
          obtain ⟨hl, hr⟩ := h2xx0
          omega
        have hdone0 : jsTruthyOpt (((responses i).2).getField "done") = false := by
          simp only [pollDone] at hnd0
          simpa using hnd0
        have hshift : i + (n + 1) = i + 1 + n := by omega
        have hrest := ih (i + 1) fuel (by omega) (fun k hk => by
          have := hgood (k + 1) (by omega)
          have heq : i + (k + 1) = i + 1 + k := by omega
          rw [heq] at this
          exact this) (by rwa [hshift] at h2xx) (by rwa [hshift] at hdone)
        simp only [pollLoop, hcond, Bool.false_eq_true, if_false, hdone0, hrest]
        rw [hshift]

theorem pollLoop_first_bad (responses : Nat → Int × Json) (n : Nat) :
    ∀ i fuel, n < fuel →
      (∀ k, k < n → is2xx ((responses (i + k)).1) ∧
        ¬ pollDone ((responses (i + k)).2)) →
      ¬ is2xx ((responses (i + n)).1) →
      pollLoop responses i fuel =
        (⟨false, some (responses (i + n)).1, (responses (i + n)).2⟩, n + 1, n) := by
  induction n with
  | zero =>
      intro i fuel hfuel _ hbad
      match fuel, hfuel with
      | fuel + 1, _ =>
        simp only [Nat.add_zero] at hbad
        have hcond : ((responses i).1 < 200 || (responses i).1 ≥ 300) = true := by
          simp only [is2xx, not_and_or, not_le, not_lt] at hbad
          simp only [Bool.or_eq_true, decide_eq_true_eq]
          omega
        simp only [pollLoop, hcond, if_true, Nat.add_zero]
  | succ n ih =>
      intro i fuel hfuel hgood hbad
      match fuel, hfuel with
      | fuel + 1, hfuel =>
        obtain ⟨h2xx0, hnd0⟩ := hgood 0 (Nat.succ_pos n)
        simp only [Nat.add_zero] at h2xx0 hnd0
        have hcond : ((responses i).1 < 200 || (responses i).1 ≥ 300) = false := by
          simp only [Bool.or_eq_false_iff, decide_eq_false_iff_not]
          obtain ⟨hl, hr⟩ := h2xx0
          omega
        have hdone0 : jsTruthyOpt (((responses i).2).getField "done") = false := by
          simp only [pollDone] at hnd0
          simpa using hnd0
        have hshift : i + (n + 1) = i + 1 + n := by omega
        have hrest := ih (i + 1) fuel (by omega) (fun k hk => by
          have := hgood (k + 1) (by omega)
          have heq : i + (k + 1) = i + 1 + k := by omega
          rw [heq] at this
          exact this) (by rwa [hshift] at hbad)
        simp only [pollLoop, hcond, Bool.false_eq_true, if_false, hdone0, hrest]
        rw [hshift]

/-- C3: the long-running-operation poller always terminates: it issues at
most GEMINI_VEO_POLL_MAX (default 20) GET requests, sleeping the fixed
interval between attempts; it returns ok=true with the payload on the
first 2xx response whose body has a truthy done, returns ok=false
immediately on the first non-2xx response, and after exhausting all
attempts returns ok=false with the operation_timeout error payload. -/
theorem pollLongRunningOperation_terminates (env : PollEnv) :
    (env.pollMaxEnv = none → pollMaxCount env = 20) ∧
    (pollLongRunningOperation env).2.1 ≤ pollMaxCount env ∧
    ((∀ k, k < pollMaxCount env → is2xx ((env.responses k).1) ∧
        ¬ pollDone ((env.responses k).2)) →
      pollLongRunningOperation env =
        (⟨false, none, pollTimeoutData⟩, pollMaxCount env, pollMaxCount env)) ∧
    (∀ n, n < pollMaxCount env →
      (∀ k, k < n → is2xx ((env.responses k).1) ∧
        ¬ pollDone ((env.responses k).2)) →
      is2xx ((env.responses n).1) → pollDone ((env.responses n).2) →
      pollLongRunningOperation env =
        (⟨true, some (env.responses n).1, (env.responses n).2⟩, n + 1, n)) ∧
    (∀ n, n < pollMaxCount env →
      (∀ k, k < n → is2xx ((env.responses k).1) ∧
        ¬ pollDone ((env.responses k).2)) →
      ¬ is2xx ((env.responses n).1) →
      pollLongRunningOperation env =
        (⟨false, some (env.responses n).1, (env.responses n).2⟩, n + 1, n)) := by
  refine ⟨?_, ?_, ?_, ?_, ?_⟩
  · intro h
    simp [pollMaxCount, h]
  · exact pollLoop_requests_le env.responses (pollMaxCount env) 0
  · intro hgood
    exact pollLoop_exhausted env.responses (pollMaxCount env) 0
      (fun k hk => by simpa using hgood k hk)
  · intro n hn hgood h2xx hdone
    have := pollLoop_first_done env.responses n 0 (pollMaxCount env) hn
      (fun k hk => by simpa using hgood k hk) (by simpa using h2xx)
      (by simpa using hdone)
    simpa [pollLongRunningOperation] using this
  · intro n hn hgood hbad
    have := pollLoop_first_bad env.responses n 0 (pollMaxCount env) hn
      (fun k hk => by simpa using hgood k hk) (by simpa using hbad)
    simpa [pollLongRunningOperation] using this

/-- Witness for C3: with an unset poll-max variable and a response stream
that is pending once and then done, the poller returns ok=true with the
second body after two GETs and one sleep. -/
theorem pollLongRunningOperation_terminates_witness :
    pollLongRunningOperation
      { pollMaxEnv := none, pollIntervalEnv := none,
        responses := fun k =>
          if k = 0 then (200, Json.obj [("done", Json.bool false)])
          else (200, Json.obj [("done", Json.bool true)]) } =
      (⟨true, some 200, Json.obj [("done", Json.bool true)]⟩, 2, 1) := by
  have h := (pollLongRunningOperation_terminates
    { pollMaxEnv := none, pollIntervalEnv := none,
      responses := fun k =>
        if k = 0 then (200, Json.obj [("done", Json.bool false)])
        else (200, Json.obj [("done", Json.bool true)]) }).2.2.2.1
    1 (by decide)
    (by
      intro k hk
      interval_cases k
      constructor
      · constructor <;> decide
      · simp [pollDone, jsTruthyOpt, Json.getField, Json.truthy])
    (by constructor <;> decide)
    (by simp [pollDone, jsTruthyOpt, Json.getField, Json.truthy])
  simpa using h


/-! ### geminiService.ts: streamCoachResponse SSE reassembler -/

/-- `extractCandidateText` from geminiService.ts:
`candidate?.content?.parts` must be a non-empty array, whose text fields
are joined and trimmed. -/
def extractCandidateText (candidate : Option Json) : String :=
  match jsGet (jsGet candidate "content") "parts" with
  | some (.arr parts) =>
      if parts.isEmpty then ""
      else
        jsTrim (String.join (parts.map (fun p =>
          match p.getField "text" with
          | some (.str s) => s
          | _ => "")))
  | _ => ""

/-- State of the promise body in `streamCoachResponse`: the carry-over
`buffer`, the accumulated `fullText`, the arguments of every `onDelta`
call so far, and the payloads passed to `onEvent`. -/
structure SseState where
  buffer : String
  fullText : String
  calls : List (String × String)
  events : List Json

/-- `String.prototype.split` on CR/LF on the character list: a line ends
at LF or CRLF; a CR not followed by LF is an ordinary character. -/
def splitReLinesAux : List Char → List Char → List (List Char)
  | [], acc => [acc.reverse]
  | '\r' :: '\n' :: rest, acc => acc.reverse :: splitReLinesAux rest []
  | '\n' :: rest, acc => acc.reverse :: splitReLinesAux rest []
  | c :: rest, acc => splitReLinesAux rest (c :: acc)

/-- `buffer.split` on the CR/LF pattern. -/
def splitReLines (s : String) : List String :=
  (splitReLinesAux s.data []).map String.mk

/-- Stripping the `data:` tag and the whitespace run behind it, applied
after the `startsWith('data:')` check. -/
def sseDataTagStripped (trimmed : String) : String :=
  if strStartsWith trimmed "data:" then
    String.mk ((trimmed.drop 5).data.dropWhile Char.isWhitespace)
  else trimmed

/-- The `if (delta) { fullText += delta; onDelta(delta, fullText); }` tail
of `handleLine`. -/
def sseEmit (s : SseState) (delta : String) : SseState :=
  if delta = "" then s
  else
    let full := s.fullText ++ delta
    { s with fullText := full, calls := s.calls ++ [(delta, full)] }

/-- The candidate-text handling of `handleLine`: skip an empty candidate
text, take only the suffix as delta when the candidate text extends the
current fullText, and emit. -/
def applyCandidateText (s : SseState) (candidateText : String) : SseState :=
  if candidateText = "" then s
  else
    let delta :=
      if s.fullText ≠ "" && strStartsWith candidateText s.fullText then
        strDropChars candidateText s.fullText.length
      else candidateText
    sseEmit s delta

/-- `handleLine` from `streamCoachResponse`; `parse` is the `JSON.parse`
oracle (`none` = the parse threw and the line is skipped). -/
def handleLine (parse : String → Option Json) (s : SseState) (line : String) :
    SseState :=
  let trimmed := jsTrim line
  if trimmed = "" then s
  else
    let payloadText := sseDataTagStripped trimmed
    if payloadText = "" || payloadText = "[DONE]" then s
    else
      match parse payloadText with
      | none => s
      | some parsed =>
          let s := { s with events := s.events ++ [parsed] }
          let candidate := jsIndex (jsGet (some parsed) "candidates") 0
          applyCandidateText s (extractCandidateText candidate)

/-- The stream data handler: append the chunk to the buffer, split on
CR/LF, keep the trailing partial line, process the full lines. -/
def processChunk (parse : String → Option Json) (st : SseState)
    (chunk : String) : SseState :=
  let lines := splitReLines (st.buffer ++ chunk)
  let st := { st with buffer := (lines.getLast?).getD "" }
  (lines.dropLast).foldl (handleLine parse) st

/-- Run the SSE reassembler over a list of received chunks from the fresh
state (empty buffer and fullText). -/
def sseRun (parse : String → Option Json) (chunks : List String) : SseState :=
  chunks.foldl (processChunk parse) ⟨"", "", [], []⟩

/-- The stream end handler: process a non-blank leftover buffer, then
resolve with the trimmed fullText.  Returns the resolved value together
with the final state. -/
def sseFinish (parse : String → Option Json) (st : SseState) :
    String × SseState :=
  let st := if 0 < (jsTrim st.buffer).length then handleLine parse st st.buffer
            else st
  (jsTrim st.fullText, st)

/-- Concatenation of the deltas of the recorded `onDelta` calls. -/
def joinDeltas : List (String × String) → String
  | [] => ""
  | c :: rest => c.1 ++ joinDeltas rest

/-- The recorded `onDelta` calls are consistent: starting from accumulated
text `acc`, each call reports as fullText the concatenation of `acc` and
all deltas up to and including that call. -/
def callsOk : String → List (String × String) → Prop
  | _, [] => True
  | acc, c :: rest => c.2 = acc ++ c.1 ∧ callsOk (acc ++ c.1) rest

/-- The reassembler invariant on a state. -/
def SseInv (s : SseState) : Prop :=
  s.fullText = joinDeltas s.calls ∧ callsOk "" s.calls

theorem joinDeltas_snoc (l : List (String × String)) (x : String × String) :
    joinDeltas (l ++ [x]) = joinDeltas l ++ x.1 := by
  induction l with
  | nil => simp [joinDeltas, String.append_empty, String.empty_append]
  | cons c rest ih =>
      show c.1 ++ joinDeltas (rest ++ [x]) = c.1 ++ joinDeltas rest ++ x.1
      rw [ih]
      exact (String.append_assoc c.1 (joinDeltas rest) x.1).symm

theorem callsOk_snoc (l : List (String × String)) :
    ∀ acc d, callsOk acc l →
      callsOk acc (l ++ [(d, acc ++ joinDeltas l ++ d)]) := by
  induction l with
  | nil =>
      intro acc d _
      refine ⟨?_, trivial⟩
      show acc ++ joinDeltas [] ++ d = acc ++ d
      simp [joinDeltas, String.append_empty]
  | cons c rest ih =>
      intro acc d h
      obtain ⟨hc, hrest⟩ := h
      refine ⟨hc, ?_⟩
      have hstep := ih (acc ++ c.1) d hrest
      have hassoc : acc ++ c.1 ++ joinDeltas rest = acc ++ joinDeltas (c :: rest) := by
        show acc ++ c.1 ++ joinDeltas rest = acc ++ (c.1 ++ joinDeltas rest)
        exact String.append_assoc acc c.1 (joinDeltas rest)
      rwa [hassoc] at hstep

theorem sseEmit_inv (s : SseState) (h : SseInv s) (delta : String) :
    SseInv (sseEmit s delta) := by
  obtain ⟨hfull, hok⟩ := h
  simp only [sseEmit]
  split
  · exact ⟨hfull, hok⟩
  · constructor
    · show s.fullText ++ delta
        = joinDeltas (s.calls ++ [(delta, s.fullText ++ delta)])
      rw [joinDeltas_snoc, ← hfull]
    · show callsOk "" (s.calls ++ [(delta, s.fullText ++ delta)])
      have hsnoc := callsOk_snoc s.calls "" delta hok
      rw [String.empty_append, ← hfull] at hsnoc
      exact hsnoc

theorem applyCandidateText_inv (s : SseState) (h : SseInv s) (c : String) :
    SseInv (applyCandidateText s c) := by
  simp only [applyCandidateText]
  split
  · exact h
  · exact sseEmit_inv s h _

theorem handleLine_inv (parse : String → Option Json) (s : SseState)
    (h : SseInv s) (line : String) : SseInv (handleLine parse s line) := by
  simp only [handleLine]
  split
  · exact h
  · split
    · exact h
    · split
      · exact h
      · next parsed heq =>
          exact applyCandidateText_inv
            { buffer := s.buffer, fullText := s.fullText, calls := s.calls,
              events := s.events ++ [parsed] }
            ⟨h.1, h.2⟩ _

theorem foldl_handleLine_inv (parse : String → Option Json)
    (lines : List String) :
    ∀ s : SseState, SseInv s → SseInv (lines.foldl (handleLine parse) s) := by
  induction lines with
  | nil => intro s h; exact h
  | cons l rest ih =>
      intro s h
      exact ih _ (handleLine_inv parse s h l)

theorem processChunk_inv (parse : String → Option Json) (st : SseState)
    (h : SseInv st) (chunk : String) : SseInv (processChunk parse st chunk) := by
  simp only [processChunk]
  exact foldl_handleLine_inv parse _ _ ⟨h.1, h.2⟩

theorem foldl_processChunk_inv (parse : String → Option Json)
    (chunks : List String) :
    ∀ st : SseState, SseInv st → SseInv (chunks.foldl (processChunk parse) st) := by
  induction chunks with
  | nil => intro st h; exact h
  | cons c rest ih =>
      intro st h
      exact ih _ (processChunk_inv parse st h c)

theorem sseRun_inv (parse : String → Option Json) (chunks : List String) :
    SseInv (sseRun parse chunks) := by
  exact foldl_processChunk_inv parse chunks _ ⟨rfl, trivial⟩

theorem strStartsWith_append (c f : String)
    (h : strStartsWith c f = true) :
    f ++ strDropChars c f.length = c := by
  have hdata : c.data.take f.data.length = f.data := by
    simpa [strStartsWith] using h
  apply String.ext
  show (f ++ strDropChars c f.length).data = c.data
  have hap : (f ++ strDropChars c f.length).data
      = f.data ++ (strDropChars c f.length).data := by
    simp
  rw [hap]
  show f.data ++ c.data.drop f.length = c.data
  have hlen : f.length = f.data.length := rfl
  rw [hlen]
  conv_rhs => rw [← List.take_append_drop f.data.length c.data]
  rw [hdata]

theorem strStartsWith_empty_left (f : String)
    (h : strStartsWith "" f = true) : f = "" := by
  have hdata : List.take f.data.length ([] : List Char) = f.data := by
    simpa [strStartsWith] using h
  apply String.ext
  simp at hdata
  simp [← hdata]

/-- C4: the SSE-chunk reassembler maintains the invariant that at every
onDelta invocation the accumulated fullText equals the concatenation of
all deltas emitted so far; blank lines and [DONE] markers (bare or behind
a data: tag) leave the state unchanged; a candidate text that extends the
current fullText contributes exactly its suffix as the delta; and on
stream end the promise resolves with the trimmed fullText after the
remaining buffered line is processed. -/
theorem streamCoachResponse_reassembler_invariant
    (parse : String → Option Json) :
    (∀ chunks : List String,
      SseInv (sseRun parse chunks) ∧
      SseInv (sseFinish parse (sseRun parse chunks)).2 ∧
      (sseFinish parse (sseRun parse chunks)).1 =
        jsTrim (sseFinish parse (sseRun parse chunks)).2.fullText) ∧
    (∀ s : SseState,
      handleLine parse s "" = s ∧
      handleLine parse s "[DONE]" = s ∧
      handleLine parse s "data: [DONE]" = s) ∧
    (∀ (s : SseState) (c : String),
      s.fullText ≠ "" → strStartsWith c s.fullText = true →
      (applyCandidateText s c).fullText = c ∧
      (c ≠ s.fullText →
        (applyCandidateText s c).calls =
          s.calls ++ [(strDropChars c s.fullText.length, c)])) := by
  refine ⟨?_, ?_, ?_⟩
  · intro chunks
    have hrun := sseRun_inv parse chunks
    have hfin : SseInv (sseFinish parse (sseRun parse chunks)).2 := by
      simp only [sseFinish]
      split
      · exact handleLine_inv parse _ hrun _
      · exact hrun
    refine ⟨hrun, hfin, ?_⟩
    simp only [sseFinish]
  · intro s
    refine ⟨rfl, rfl, rfl⟩
  · intro s c hne hpre
    have hcne : c ≠ "" := by
      intro hc
      subst hc
      exact hne (strStartsWith_empty_left _ hpre)
    have hcond : (s.fullText ≠ "" && strStartsWith c s.fullText) = true := by
      simp [hne, hpre]
    have happ := strStartsWith_append c s.fullText hpre
    by_cases hdel : strDropChars c s.fullText.length = ""
    · have hceq : c = s.fullText := by
        rw [← happ, hdel, String.append_empty]
      refine ⟨?_, fun hne2 => absurd hceq hne2⟩
      simp only [applyCandidateText, if_neg hcne, hcond, if_true, sseEmit,
        hdel, if_pos]
      simp [hceq]
    · constructor
      · simp only [applyCandidateText, if_neg hcne, hcond, if_true, sseEmit,
          if_neg hdel]
        exact happ
      · intro _
        simp only [applyCandidateText, if_neg hcne, hcond, if_true, sseEmit,
          if_neg hdel]
        rw [happ]

/-- Witness for C4: two concrete chunks carrying extending candidate texts
produce a consistent state, and a candidate text extending the current
fullText yields exactly the suffix delta. -/
theorem streamCoachResponse_reassembler_invariant_witness :
    SseInv (sseRun (fun t => some (.obj [("candidates",
        .arr [.obj [("content", .obj [("parts",
          .arr [.obj [("text", .str t)]])])]])])) ["ab\n", "abc\n"]) ∧
    (applyCandidateText ⟨"", "ab", [("ab", "ab")], []⟩ "abc").fullText
      = "abc" := by
  constructor
  · exact ((streamCoachResponse_reassembler_invariant _).1
      ["ab\n", "abc\n"]).1
  · exact (((streamCoachResponse_reassembler_invariant
      (fun _ => none)).2.2 ⟨"", "ab", [("ab", "ab")], []⟩ "abc"
      (by decide) (by decide)).1)


/-! ### geminiService.ts: generateWeddingStyledPhotoWithTemplate -/

/-- The `finalPromptText` assembled by `generateWeddingStyledPhotoWithTemplate`
in src/server/bebek/services/geminiService.ts. -/
def weddingFinalPromptText (prompt : String) : String :=
  "TASK: Create a wedding portrait using two identity references and one scene template.\n\n" ++
  "INPUTS:\n" ++
  "1) MOTHER PHOTO -> preserve mother identity exactly.\n" ++
  "2) FATHER PHOTO -> preserve father identity exactly.\n" ++
  "3) TEMPLATE PHOTO -> copy only composition, pose and environment.\n\n" ++
  "STYLE BRIEF:\n" ++ prompt ++ "\n\n" ++
  "RULES:\n" ++
  "- Keep both parents facial identity unchanged.\n" ++
  "- Place both persons naturally into the template wedding scene.\n" ++
  "- Keep realistic skin tones, anatomy and lighting.\n" ++
  "- Do not create extra people.\n" ++
  "- Keep result ultra realistic, premium wedding photography style.\n" ++
  "- Return exactly one final image."

/-- The `falInput` object built by `generateWeddingStyledPhotoWithTemplate`
for its single `fal.subscribe` call: the assembled wedding prompt and the
three data URIs (mother, father, template). -/
def weddingFalInput (motherImageBase64 motherMimeType fatherImageBase64
    fatherMimeType templateImageBase64 templateMimeType prompt : String) :
    FalImageInput :=
  { prompt := weddingFinalPromptText prompt,
    image_urls :=
      ["data:" ++ motherMimeType ++ ";base64," ++ motherImageBase64,
       "data:" ++ fatherMimeType ++ ";base64," ++ fatherImageBase64,
       "data:" ++ templateMimeType ++ ";base64," ++ templateImageBase64],
    image_size := "portrait_16_9", num_images := 1, max_images := 1,
    enhance_prompt_mode := "standard", enable_safety_checker := true }

/-- `generateWeddingStyledPhotoWithTemplate` from
src/server/bebek/services/geminiService.ts (lines 446-531), the module
src/routes/styles.ts imports the wedding generator from and whose
base64-based signature matches the route call site: one single
`fal.subscribe` call carrying the three data URIs and the assembled
wedding prompt, then the download of that call output image URL.  The
second component lists the `fal.subscribe` calls issued (model and
input).  (A staged duplicate of the module under src/unnamed/part_001
has a URL-based two-step face-swap variant instead, but the route import
and arguments do not resolve to it.) -/
def generateWeddingStyledPhotoWithTemplate (env : ImageGenEnv)
    (motherImageBase64 motherMimeType fatherImageBase64 fatherMimeType
     templateImageBase64 templateMimeType prompt : String)
    (model : Option String) :
    Except String GenResult × List (String × FalImageInput) :=
  let resolvedModel := jsOrStr model (defaultFalImageModel env)
  match env.falKey with
  | none =>
      let response : Except String GenResult :=
        if !env.nodeEnvProduction then
          .ok { data := motherImageBase64, mimeType := motherMimeType,
                text := some "Mock response used because FAL_KEY is missing" }
        else .error "FAL_KEY is not configured"
      (response, [])
  | some _ =>
      let falInput := weddingFalInput motherImageBase64 motherMimeType
        fatherImageBase64 fatherMimeType templateImageBase64
        templateMimeType prompt
      let response : Except String GenResult :=
        match env.falSubscribe resolvedModel falInput with
        | .error e => .error e
        | .ok result =>
            match jsGet (jsIndex (jsGet (jsGet (some result) "data") "images") 0) "url" with
            | some (.str s) =>
                if s = "" then
                  .error "FAL returned no output image URL for wedding generation"
                else
                  let downloaded := env.download s
                  .ok { data := downloaded.1,
                        mimeType := jsOrStr downloaded.2 "image/png",
                        text := none }
            | _ => .error "FAL returned no output image URL for wedding generation"
      (response, [(resolvedModel, falInput)])

/-- C1 (corrected): the wedding template generation the router invokes
(generateWeddingStyledPhotoWithTemplate of
src/server/bebek/services/geminiService.ts) performs no two-step face
swap.  With a configured FAL key it issues exactly one fal.subscribe
call, whose input carries the mother, father and template images
together as data URIs and the assembled wedding prompt, and when that
call yields an output image URL the returned image is the download of
that single call output URL. -/
theorem wedding_generation_single_fal_call
    (env : ImageGenEnv)
    (mB mM fB fM tB tM prompt : String) (model : Option String)
    (k : String) (hkey : env.falKey = some k) :
    (generateWeddingStyledPhotoWithTemplate env mB mM fB fM tB tM prompt
        model).2 =
      [(jsOrStr model (defaultFalImageModel env),
        weddingFalInput mB mM fB fM tB tM prompt)] ∧
    (generateWeddingStyledPhotoWithTemplate env mB mM fB fM tB tM prompt
        model).2.length = 1 ∧
    (weddingFalInput mB mM fB fM tB tM prompt).image_urls =
      ["data:" ++ mM ++ ";base64," ++ mB,
       "data:" ++ fM ++ ";base64," ++ fB,
       "data:" ++ tM ++ ";base64," ++ tB] ∧
    (weddingFalInput mB mM fB fM tB tM prompt).prompt =
      weddingFinalPromptText prompt ∧
    (∀ result s,
      env.falSubscribe (jsOrStr model (defaultFalImageModel env))
        (weddingFalInput mB mM fB fM tB tM prompt) = .ok result →
      jsGet (jsIndex (jsGet (jsGet (some result) "data") "images") 0)
        "url" = some (.str s) →
      s ≠ "" →
      (generateWeddingStyledPhotoWithTemplate env mB mM fB fM tB tM prompt
          model).1 =
        .ok { data := (env.download s).1,
              mimeType := jsOrStr (env.download s).2 "image/png",
              text := none }) := by
  refine ⟨?_, ?_, rfl, rfl, ?_⟩
  · simp only [generateWeddingStyledPhotoWithTemplate, hkey]
  · simp only [generateWeddingStyledPhotoWithTemplate, hkey]
    rfl
  · intro result s hsub hurl hs
    simp only [generateWeddingStyledPhotoWithTemplate, hkey, hsub, hurl]
    rw [if_neg hs]

/-- Witness for C1: a concrete environment in which the single wedding
fal.subscribe call succeeds and its output URL is downloaded. -/
theorem wedding_generation_single_fal_call_witness :
    (generateWeddingStyledPhotoWithTemplate
      { falKey := some "k", nodeEnvProduction := true,
        falImageModelEnv := none,
        falSubscribe := fun _ _ => .ok (.obj [("data", .obj [("images",
          .arr [.obj [("url", .str "u1")]])])]),
        download := fun u => (u, none) }
      "momB" "image/jpeg" "dadB" "image/jpeg" "tplB" "image/jpeg" "stil"
      none).2.length = 1 ∧
    (generateWeddingStyledPhotoWithTemplate
      { falKey := some "k", nodeEnvProduction := true,
        falImageModelEnv := none,
        falSubscribe := fun _ _ => .ok (.obj [("data", .obj [("images",
          .arr [.obj [("url", .str "u1")]])])]),
        download := fun u => (u, none) }
      "momB" "image/jpeg" "dadB" "image/jpeg" "tplB" "image/jpeg" "stil"
      none).1 =
      .ok { data := "u1", mimeType := "image/png", text := none } := by
  have h := wedding_generation_single_fal_call
    { falKey := some "k", nodeEnvProduction := true,
      falImageModelEnv := none,
      falSubscribe := fun _ _ => .ok (.obj [("data", .obj [("images",
        .arr [.obj [("url", .str "u1")]])])]),
      download := fun u => (u, none) }
    "momB" "image/jpeg" "dadB" "image/jpeg" "tplB" "image/jpeg" "stil"
    none "k" rfl
  exact ⟨h.2.1, h.2.2.2.2
    (.obj [("data", .obj [("images", .arr [.obj [("url", .str "u1")]])])])
    "u1" rfl rfl (by decide)⟩

/-- Counterexample to the original C1 reading: on the wedding generator
the route actually calls, a successful generation issues exactly one
provider call (not a two-call face-swap sequence), and its single input
already contains all three images. -/
theorem wedding_generation_two_step_counterexample :
    (generateWeddingStyledPhotoWithTemplate
      { falKey := some "k", nodeEnvProduction := true,
        falImageModelEnv := none,
        falSubscribe := fun _ _ => .ok (.obj [("data", .obj [("images",
          .arr [.obj [("url", .str "u1")]])])]),
        download := fun u => (u, none) }
      "momB" "image/jpeg" "dadB" "image/jpeg" "tplB" "image/jpeg" "stil"
      none).2.length ≠ 2 ∧
    (generateWeddingStyledPhotoWithTemplate
      { falKey := some "k", nodeEnvProduction := true,
        falImageModelEnv := none,
        falSubscribe := fun _ _ => .ok (.obj [("data", .obj [("images",
          .arr [.obj [("url", .str "u1")]])])]),
        download := fun u => (u, none) }
      "momB" "image/jpeg" "dadB" "image/jpeg" "tplB" "image/jpeg" "stil"
      none).2.map (fun c => c.2.image_urls.length) = [3] := by
  constructor
  · decide
  · rfl


/-! ### geminiService.ts: generateStyledVideoWithVeo (pixverse swap) -/

/-- `extractVideoUrlFromFalResponse` from geminiService.ts. -/
def extractVideoUrlFromFalResponse (payload : Json) : Option String :=
  jsNonEmptyTrimmedString (jsOrChain
    [ jsGet (jsGet (some payload) "video") "url",
      jsGet (some payload) "videoUrl",
      jsGet (jsGet (some payload) "output") "url",
      jsGet (jsGet (jsGet (some payload) "result") "video") "url",
      jsGet (jsGet (jsGet (some payload) "response") "video") "url",
      jsGet (jsGet (some payload) "response") "videoUrl",
      jsGet (jsGet (jsGet (some payload) "response") "output") "url",
      jsGet (jsGet (jsGet (jsGet (some payload) "response") "result") "video") "url",
      jsGet (jsGet (jsGet (some payload) "data") "video") "url",
      jsGet (jsGet (jsGet (jsGet (some payload) "response") "data") "video") "url",
      jsGet (jsGet (jsGet (jsGet (some payload) "result") "data") "video") "url" ])

/-- The `input` object built by `runPixverseSwap`. -/
structure PixverseInput where
  video_url : String
  image_url : String
  mode : String
  keyframe_id : Int
  resolution : String
  original_sound_switch : Bool
  prompt : Option String
deriving Repr, DecidableEq

/-- Environment of the styled-video pipeline: the fal key, the
`process.env` knobs read by `generateStyledVideoWithVeo`, and an oracle
for the n-th pixverse `fal.subscribe` call. -/
structure VideoEnv where
  falKey : Option String
  resolutionEnv : Option String
  keyframeEnv : Option Int
  backgroundSwapEnv : Option String
  babyBackgroundImageUrlEnv : Option String
  videoModelEnv : Option String
  pixverse : Nat → PixverseInput → Except String Json

/-- The `framingPrompt` passed to the person swap. -/
def framingPrompt : String :=
  "Keep the baby face slightly farther from camera with medium-shot framing. Avoid extreme close-up facial framing. " ++
  "Remove any Instagram logo, watermark, username label, or platform text overlay from the final video."

/-- The `input` assembled by `runPixverseSwap` from its arguments and the
environment knobs (resolution default 720p, keyframe default 1,
`original_sound_switch: true`). -/
def pixverseSwapInput (env : VideoEnv) (mode videoUrl imageUrl : String)
    (prompt : Option String) : PixverseInput :=
  { video_url := videoUrl, image_url := imageUrl, mode := mode,
    keyframe_id := env.keyframeEnv.getD 1,
    resolution := jsOrStr env.resolutionEnv "720p",
    original_sound_switch := true, prompt := prompt }

/-- `providerRaw` of the video result: null, a single swap payload, or the
`{ personSwap, backgroundSwap }` pair. -/
inductive ProviderRaw where
  | nullRaw
  | single (payload : Json)
  | pair (personSwap backgroundSwap : Json)

/-- Return shape of `generateStyledVideoWithVeo`. -/
structure VideoResult where
  outputVideoUrl : String
  providerText : Option String
  providerStatus : Option Int
  usedFallback : Bool
  providerRaw : ProviderRaw

/-- `generateStyledVideoWithVeo` from geminiService.ts (the pixverse
variant): person swap on the reference video, then, when enabled and
configured, a background swap on the person-swap output; provider errors
of the background step are swallowed, all other provider errors fall back
to the reference video URL.  The second component lists the pixverse
calls issued. -/
def generateStyledVideoWithVeo (env : VideoEnv) (styleId : Option String)
    (userImageUrl referenceVideoUrl : String)
    (requestId model : Option String) :
    VideoResult × List PixverseInput :=
  let enableBackgroundSwap := jsOrStr env.backgroundSwapEnv "true" == "true"
  let babyBackgroundImageUrl := jsOrStr env.babyBackgroundImageUrlEnv ""
  match env.falKey with
  | none =>
      ({ outputVideoUrl := referenceVideoUrl,
         providerText := some "Fallback video URL used because FAL_KEY is missing.",
         providerStatus := none, usedFallback := true,
         providerRaw := .nullRaw }, [])
  | some _ =>
      let personInput :=
        pixverseSwapInput env "person" referenceVideoUrl userImageUrl
          (some framingPrompt)
      match env.pixverse 0 personInput with
      | .error e =>
          ({ outputVideoUrl := referenceVideoUrl,
             providerText := some ("FAL request failed: " ++ jsOrStr (some e) "unknown error"),
             providerStatus := none, usedFallback := true,
             providerRaw := .nullRaw }, [personInput])
      | .ok personPayload =>
          match extractVideoUrlFromFalResponse personPayload with
          | none =>
              ({ outputVideoUrl := referenceVideoUrl,
                 providerText := some "FAL fallback used (person swap response missing video URL)",
                 providerStatus := some 200, usedFallback := true,
                 providerRaw := .single personPayload }, [personInput])
          | some personUrl =>
              if enableBackgroundSwap && babyBackgroundImageUrl != "" then
                let bgInput :=
                  pixverseSwapInput env "background" personUrl
                    babyBackgroundImageUrl none
                match env.pixverse 1 bgInput with
                | .error _ =>
                    ({ outputVideoUrl := personUrl,
                       providerText := some "Background swap failed; returning person swap output.",
                       providerStatus := some 200, usedFallback := false,
                       providerRaw := .single personPayload },
                     [personInput, bgInput])
                | .ok bgPayload =>
                    match extractVideoUrlFromFalResponse bgPayload with
                    | some bgUrl =>
                        ({ outputVideoUrl := bgUrl, providerText := none,
                           providerStatus := some 200, usedFallback := false,
                           providerRaw := .pair personPayload bgPayload },
                         [personInput, bgInput])
                    | none =>
                        ({ outputVideoUrl := personUrl,
                           providerText := some "Background swap skipped: response missing video URL, returning person swap output.",
                           providerStatus := some 200, usedFallback := false,
                           providerRaw := .pair personPayload bgPayload },
                         [personInput, bgInput])
              else
                ({ outputVideoUrl := personUrl, providerText := none,
                   providerStatus := some 200, usedFallback := false,
                   providerRaw := .single personPayload }, [personInput])

/-- C2: with a configured provider key, generateStyledVideoWithVeo first
runs a person-mode swap on the reference video with the user image; only
when that step returns an output URL, background swap is enabled and a
background image URL is configured does it run a background-mode swap on
the person-swap output; if the background step throws or returns no URL
the result is the person-swap output with usedFallback=false; and if the
person step returns no URL the result is the reference video URL with
usedFallback=true. -/
theorem generateStyledVideoWithVeo_person_then_background
    (env : VideoEnv) (styleId : Option String)
    (userImageUrl referenceVideoUrl : String)
    (requestId model : Option String) (k : String)
    (hkey : env.falKey = some k) :
    ((generateStyledVideoWithVeo env styleId userImageUrl referenceVideoUrl
        requestId model).2.head? =
      some (pixverseSwapInput env "person" referenceVideoUrl userImageUrl
        (some framingPrompt))) ∧
    (∀ pp, env.pixverse 0 (pixverseSwapInput env "person" referenceVideoUrl
        userImageUrl (some framingPrompt)) = .ok pp →
      extractVideoUrlFromFalResponse pp = none →
      generateStyledVideoWithVeo env styleId userImageUrl referenceVideoUrl
          requestId model =
        ({ outputVideoUrl := referenceVideoUrl,
           providerText := some "FAL fallback used (person swap response missing video URL)",
           providerStatus := some 200, usedFallback := true,
           providerRaw := .single pp },
         [pixverseSwapInput env "person" referenceVideoUrl userImageUrl
           (some framingPrompt)])) ∧
    (∀ pp purl, env.pixverse 0 (pixverseSwapInput env "person"
        referenceVideoUrl userImageUrl (some framingPrompt)) = .ok pp →
      extractVideoUrlFromFalResponse pp = some purl →
      (jsOrStr env.backgroundSwapEnv "true" == "true"
        && jsOrStr env.babyBackgroundImageUrlEnv "" != "") = false →
      generateStyledVideoWithVeo env styleId userImageUrl referenceVideoUrl
          requestId model =
        ({ outputVideoUrl := purl, providerText := none,
           providerStatus := some 200, usedFallback := false,
           providerRaw := .single pp },
         [pixverseSwapInput env "person" referenceVideoUrl userImageUrl
           (some framingPrompt)])) ∧
    (∀ pp purl, env.pixverse 0 (pixverseSwapInput env "person"
        referenceVideoUrl userImageUrl (some framingPrompt)) = .ok pp →
      extractVideoUrlFromFalResponse pp = some purl →
      (jsOrStr env.backgroundSwapEnv "true" == "true"
        && jsOrStr env.babyBackgroundImageUrlEnv "" != "") = true →
      (generateStyledVideoWithVeo env styleId userImageUrl referenceVideoUrl
          requestId model).2 =
        [pixverseSwapInput env "person" referenceVideoUrl userImageUrl
          (some framingPrompt),
         pixverseSwapInput env "background" purl
          (jsOrStr env.babyBackgroundImageUrlEnv "") none]) ∧
    (∀ pp purl e, env.pixverse 0 (pixverseSwapInput env "person"
        referenceVideoUrl userImageUrl (some framingPrompt)) = .ok pp →
      extractVideoUrlFromFalResponse pp = some purl →
      (jsOrStr env.backgroundSwapEnv "true" == "true"
        && jsOrStr env.babyBackgroundImageUrlEnv "" != "") = true →
      env.pixverse 1 (pixverseSwapInput env "background" purl
        (jsOrStr env.babyBackgroundImageUrlEnv "") none) = .error e →
      (generateStyledVideoWithVeo env styleId userImageUrl referenceVideoUrl
          requestId model).1 =
        { outputVideoUrl := purl,
          providerText := some "Background swap failed; returning person swap output.",
          providerStatus := some 200, usedFallback := false,
          providerRaw := .single pp }) ∧
    (∀ pp purl bp, env.pixverse 0 (pixverseSwapInput env "person"
        referenceVideoUrl userImageUrl (some framingPrompt)) = .ok pp →
      extractVideoUrlFromFalResponse pp = some purl →
      (jsOrStr env.backgroundSwapEnv "true" == "true"
        && jsOrStr env.babyBackgroundImageUrlEnv "" != "") = true →
      env.pixverse 1 (pixverseSwapInput env "background" purl
        (jsOrStr env.babyBackgroundImageUrlEnv "") none) = .ok bp →
      extractVideoUrlFromFalResponse bp = none →
      (generateStyledVideoWithVeo env styleId userImageUrl referenceVideoUrl
          requestId model).1 =
        { outputVideoUrl := purl,
          providerText := some "Background swap skipped: response missing video URL, returning person swap output.",
          providerStatus := some 200, usedFallback := false,
          providerRaw := .pair pp bp }) ∧
    (∀ pp purl bp burl, env.pixverse 0 (pixverseSwapInput env "person"
        referenceVideoUrl userImageUrl (some framingPrompt)) = .ok pp →
      extractVideoUrlFromFalResponse pp = some purl →
      (jsOrStr env.backgroundSwapEnv "true" == "true"
        && jsOrStr env.babyBackgroundImageUrlEnv "" != "") = true →
      env.pixverse 1 (pixverseSwapInput env "background" purl
        (jsOrStr env.babyBackgroundImageUrlEnv "") none) = .ok bp →
      extractVideoUrlFromFalResponse bp = some burl →
      (generateStyledVideoWithVeo env styleId userImageUrl referenceVideoUrl
          requestId model).1 =
        { outputVideoUrl := burl, providerText := none,
          providerStatus := some 200, usedFallback := false,
          providerRaw := .pair pp bp }) := by
  refine ⟨?_, ?_, ?_, ?_, ?_, ?_, ?_⟩
  · simp only [generateStyledVideoWithVeo, hkey]
    split
    · rfl
    · split
      · rfl
      · split
        · split
          · rfl
          · split <;> rfl
        · rfl
  · intro pp hp hnone
    simp only [generateStyledVideoWithVeo, hkey, hp, hnone]
  · intro pp purl hp hpurl hcond
    simp only [generateStyledVideoWithVeo, hkey, hp, hpurl, hcond,
      Bool.false_eq_true, if_false]
  · intro pp purl hp hpurl hcond
    simp only [generateStyledVideoWithVeo, hkey, hp, hpurl, hcond, if_true]
    split
    · rfl
    · split <;> rfl
  · intro pp purl e hp hpurl hcond he
    simp only [generateStyledVideoWithVeo, hkey, hp, hpurl, hcond, if_true,
      he]
  · intro pp purl bp hp hpurl hcond hb hbnone
    simp only [generateStyledVideoWithVeo, hkey, hp, hpurl, hcond, if_true,
      hb, hbnone]
  · intro pp purl bp burl hp hpurl hcond hb hburl
    simp only [generateStyledVideoWithVeo, hkey, hp, hpurl, hcond, if_true,
      hb, hburl]

/-- Witness for C2: a concrete environment where both swaps succeed; the
two calls are the person swap and the background swap on its output, and
the result is the background output with usedFallback=false. -/
theorem generateStyledVideoWithVeo_person_then_background_witness :
    ((generateStyledVideoWithVeo
      { falKey := some "k", resolutionEnv := none, keyframeEnv := none,
        backgroundSwapEnv := none,
        babyBackgroundImageUrlEnv := some "bg.png", videoModelEnv := none,
        pixverse := fun i _ =>
          .ok (.obj [("video", .obj [("url",
            .str (if i = 0 then "purl" else "burl"))])]) }
      none "user.png" "ref.mp4" none none).2.head? =
      some (pixverseSwapInput
        { falKey := some "k", resolutionEnv := none, keyframeEnv := none,
          backgroundSwapEnv := none,
          babyBackgroundImageUrlEnv := some "bg.png", videoModelEnv := none,
          pixverse := fun i _ =>
            .ok (.obj [("video", .obj [("url",
              .str (if i = 0 then "purl" else "burl"))])]) }
        "person" "ref.mp4" "user.png" (some framingPrompt))) ∧
    ((generateStyledVideoWithVeo
      { falKey := some "k", resolutionEnv := none, keyframeEnv := none,
        backgroundSwapEnv := none,
        babyBackgroundImageUrlEnv := some "bg.png", videoModelEnv := none,
        pixverse := fun i _ =>
          .ok (.obj [("video", .obj [("url",
            .str (if i = 0 then "purl" else "burl"))])]) }
      none "user.png" "ref.mp4" none none).1.outputVideoUrl = "burl") := by
  have h := generateStyledVideoWithVeo_person_then_background
    { falKey := some "k", resolutionEnv := none, keyframeEnv := none,
      backgroundSwapEnv := none,
      babyBackgroundImageUrlEnv := some "bg.png", videoModelEnv := none,
      pixverse := fun i _ =>
        .ok (.obj [("video", .obj [("url",
          .str (if i = 0 then "purl" else "burl"))])]) }
    none "user.png" "ref.mp4" none none "k" rfl
  refine ⟨h.1, ?_⟩
  have hfinal := h.2.2.2.2.2.2
    (.obj [("video", .obj [("url", .str "purl")])]) "purl"
    (.obj [("video", .obj [("url", .str "burl")])]) "burl"
    rfl (by decide) (by decide) rfl (by decide)
  rw [hfinal]


/-! ### constants.ts and the chat data model -/

/-- `BIG_SYSTEM_PROMPT` from src/server/bebek/constants.ts. -/
def BIG_SYSTEM_PROMPT : String :=
  "# ROLE: Bebek AI Lead Health Coach\n" ++
  "Sen, Bebek AI uygulamasının profesyonel, empatik, bilimsel temelli ve motive edici yapay zeka sağlık koçusun. Kullanıcıların beslenme, fitness ve genel sağlık hedeflerine ulaşmalarını sağlarsın.\n" ++
  "\n" ++
  "# PERSONALITY TRAITS:\n" ++
  "- Destekleyici ama Gerçekçi: Kullanıcı hata yaptığında suçlayıcı değil, çözüm odaklı yaklaş.\n" ++
  "- Witty (Nüktedan): Hafif espriler ve samimi bir ton kullan ama ciddiyeti elden bırakma.\n" ++
  "- Kısa ve Öz: Uzun metinler yazma; taranabilir, maddeli cevaplar ver.\n" ++
  "\n" ++
  "# KNOWLEDGE BASE & DATA INTERPRETATION:\n" ++
  "1) User Profile: Yaş, boy, hedefe göre tavsiye ver.\n" ++
  "2) Daily Progress: Makro dengesine bak; eksik makroları öner.\n" ++
  "3) Memory Summary: Eski alışkanlıkları hatırla ve kişiselleştir.\n" ++
  "\n" ++
  "# RESPONSE GUIDELINES:\n" ++
  "- Tıbbi teşhis koyma; gerekli durumda doktora yönlendir.\n" ++
  "- Birimler: Kullanıcının tercih ettiği birimleri kullan.\n" ++
  "- Eylem odaklı ol: Küçük bir Next Step öner.\n" ++
  "- Format: Önemli kelimeleri kalın yap, gerektiğinde madde kullan.\n" ++
  "\n" ++
  "# CRITICAL RULES:\n" ++
  "- Kullanıcı \"Kaç kalori aldım?\" derse ve veri varsa net cevap ver.\n" ++
  "- Eğer kullanıcı aşırı düşük kalori/zararlı diyet isterse nazikçe uyar ve sağlıklı sınırları hatırlat.\n" ++
  "- Sadece Bebek AI sağlık/kalori koçu olarak yanıt ver. Görsel üretme, kod yazma, dosya hazırlama gibi koçluk dışı talepleri reddet ve şu cümleyle bitir: \"Ben bir Bebek AI kalori koçuyum, bu isteği yerine getiremiyorum.\""

/-- The `{ mimeType }` image metadata stored with a user message. -/
structure ImageMeta where
  mimeType : String
deriving Repr, DecidableEq

/-- The `childProfile` context tag read by `buildContext`. -/
structure ChildProfile where
  name : Option String := none
  gender : Option String := none
  birthDate : Option String := none
deriving Repr, DecidableEq

/-- The `chatPersonalization` context tag read by `buildContext`. -/
structure ChatPersonalization where
  tone : Option String := none
  mood : Option String := none
  responseLength : Option String := none
  emojiStyle : Option String := none
deriving Repr, DecidableEq

/-- The `contextTags` record as consumed by the chat service. -/
structure ContextTags where
  childProfile : Option ChildProfile := none
  chatPersonalization : Option ChatPersonalization := none
deriving Repr, DecidableEq

/-- The fields of `UserInfo` that the chat service reads (numeric fields
are abstracted by their decimal rendering in template strings). -/
structure UserInfo where
  id : String
  name : Option String := none
  goal : Option String := none
  height_cm : Option String := none
  current_weight_kg : Option String := none
deriving Repr, DecidableEq

/-- A `chat_messages` document. -/
structure MessageDoc where
  id : String
  session_id : String
  role : String
  content : String
  metadata : Option ContextTags
  image : Option ImageMeta
  created_at : Nat
deriving Repr, DecidableEq

/-- A `chat_sessions` document; every field optional so that Firestore
merge writes can be modelled per field. -/
structure SessionFields where
  user_id : Option String := none
  status : Option String := none
  child_id : Option String := none
  child_name : Option String := none
  custom_title : Option String := none
  created_at : Option Nat := none
  updated_at : Option Nat := none
deriving Repr, DecidableEq

/-- A `chat_memory_summaries` document. -/
structure SummaryDoc where
  user_id : String
  summary : String
  last_message_at : Nat
deriving Repr, DecidableEq

/-- The document store as the chat service sees it. -/
structure DBState where
  chat_sessions : List (String × SessionFields) := []
  chat_messages : List (String × MessageDoc) := []
  chat_memory_summaries : List (String × SummaryDoc) := []
deriving Repr, DecidableEq

/-- The request body of a Gemini generateContent call: the system
instruction text and the contents array. -/
structure GeminiRequestBody where
  systemText : String
  contents : List GeminiContent
deriving Repr, DecidableEq

/-- A chunk sent over the websocket by `handleChatMessageStream`. -/
structure WsChunkPayload where
  delta : Option String := none
  content : Option String := none
  isFinal : Option Bool := none
  error : Option String := none
deriving Repr, DecidableEq

/-- Observable effects of the chat service, in order: document writes and
deletes, provider calls, and websocket sends. -/
inductive ChatEvt where
  | setMessage (id : String) (doc : MessageDoc)
  | addSession (id : String) (doc : SessionFields)
  | mergeSession (id : String) (fields : SessionFields)
  | setSummary (id : String) (doc : SummaryDoc)
  | addSummary (id : String) (doc : SummaryDoc)
  | deleteMessageDoc (id : String)
  | deleteSessionDoc (id : String)
  | coachCall (body : GeminiRequestBody)
  | summaryCall (input : String)
  | streamRequest (body : GeminiRequestBody)
  | wsSend (userId chatId messageId : String) (payload : WsChunkPayload)
deriving Repr, DecidableEq

/-- The world threaded through the chat service: the document store, the
effect trace, and the consumption indices of the uuid, generated-doc-id
and clock supplies. -/
structure World where
  db : DBState
  trace : List ChatEvt
  uuidIx : Nat := 0
  docIx : Nat := 0
  timeIx : Nat := 0

/-- Environment of the chat service: configuration, provider oracles and
the uuid / doc-id / clock supplies. -/
structure ChatEnv where
  geminiApiKey : Option String
  coachFn : GeminiRequestBody → Except String String
  summaryFn : String → Option String
  streamChunks : List String
  streamErr : Option String
  parseJson : String → Option Json
  uuids : Nat → String
  docIds : Nat → String
  times : Nat → Nat

/-- Firestore `doc(id).set(v)`: create or replace. -/
def dbSetDoc {α : Type} (l : List (String × α)) (id : String) (v : α) :
    List (String × α) :=
  (id, v) :: l.filter (fun kv => kv.1 != id)

/-- Merge one optional field (`set` with `{ merge: true }`). -/
def ov {α : Type} (payload old : Option α) : Option α :=
  match payload with
  | some v => some v
  | none => old

/-- Merge a partial `SessionFields` payload into an existing document. -/
def mergeSessionFields (old payload : SessionFields) : SessionFields :=
  { user_id := ov payload.user_id old.user_id,
    status := ov payload.status old.status,
    child_id := ov payload.child_id old.child_id,
    child_name := ov payload.child_name old.child_name,
    custom_title := ov payload.custom_title old.custom_title,
    created_at := ov payload.created_at old.created_at,
    updated_at := ov payload.updated_at old.updated_at }

/-- Firestore `doc(id).set(payload, { merge: true })` on chat_sessions. -/
def mergeSessionDoc (sessions : List (String × SessionFields)) (id : String)
    (payload : SessionFields) : List (String × SessionFields) :=
  match sessions.lookup id with
  | some old => dbSetDoc sessions id (mergeSessionFields old payload)
  | none => dbSetDoc sessions id payload

/-- Append one effect to the trace. -/
def World.pushEvt (w : World) (e : ChatEvt) : World :=
  { w with trace := w.trace ++ [e] }

/-- `new Date().toISOString()`. -/
def freshTime (env : ChatEnv) (w : World) : Nat × World :=
  (env.times w.timeIx, { w with timeIx := w.timeIx + 1 })

/-- `uuidv4()`. -/
def freshUuid (env : ChatEnv) (w : World) : String × World :=
  (env.uuids w.uuidIx, { w with uuidIx := w.uuidIx + 1 })

/-- The generated id of `collection.add(...)`. -/
def freshDocId (env : ChatEnv) (w : World) : String × World :=
  (env.docIds w.docIx, { w with docIx := w.docIx + 1 })

theorem lookup_filter_ne {α : Type} (l : List (String × α)) (id idq : String)
    (h : idq ≠ id) :
    (l.filter (fun kv => kv.1 != id)).lookup idq = l.lookup idq := by
  induction l with
  | nil => rfl
  | cons kv rest ih =>
      obtain ⟨k, v⟩ := kv
      by_cases hkv : k = id
      · subst hkv
        have hq : (idq == k) = false := by simp [h]
        simp [List.filter_cons, List.lookup, hq, ih]
      · have hne : (k != id) = true := by simp [hkv]
        simp only [List.filter_cons, hne, if_true]
        cases hq : idq == k with
        | true => simp [List.lookup, hq]
        | false => simp [List.lookup, hq, ih]

theorem lookup_dbSetDoc_self {α : Type} (l : List (String × α)) (id : String)
    (v : α) : (dbSetDoc l id v).lookup id = some v := by
  simp [dbSetDoc, List.lookup]

theorem lookup_dbSetDoc_ne {α : Type} (l : List (String × α)) (id idq : String)
    (v : α) (h : idq ≠ id) :
    (dbSetDoc l id v).lookup idq = l.lookup idq := by
  have hq : (idq == id) = false := by simp [h]
  simp [dbSetDoc, List.lookup, hq, lookup_filter_ne l id idq h]


/-! ### chatService.ts: context assembly and message handling -/

/-- Stable-enough insertion into a descending-by-created_at list (models
the `(a, b) => bTs - aTs` comparator; tie order is immaterial to every
consumer). -/
def insertDesc (m : MessageDoc) : List MessageDoc → List MessageDoc
  | [] => [m]
  | x :: xs =>
      if x.created_at < m.created_at then m :: x :: xs
      else x :: insertDesc m xs

/-- Sort messages by created_at descending. -/
def sortMessagesDesc : List MessageDoc → List MessageDoc
  | [] => []
  | m :: rest => insertDesc m (sortMessagesDesc rest)

/-- The `chat_messages` documents of one session (the
`where('session_id', '==', sessionId)` query). -/
def messagesOfSession (db : DBState) (sessionId : String) : List MessageDoc :=
  (db.chat_messages.filter (fun kv => kv.2.session_id == sessionId)).map Prod.snd

/-- `getChatMemorySummary`: the first `chat_memory_summaries` document of
the user (`limit(1)`). -/
def getChatMemorySummary (db : DBState) (userId : String) :
    Option (String × SummaryDoc) :=
  (db.chat_memory_summaries.filter (fun kv => kv.2.user_id == userId)).head?

/-- One `Koç: ...` / `Kullanıcı: ...` line of the history rendering. -/
def coachLine (role content : String) : String :=
  (if role = "assistant" then "Koç" else "Kullanıcı") ++ ": " ++ content

/-- `generateSummary` from geminiService.ts: null without an API key,
otherwise the summary oracle result (`text?.trim() || null`; provider
errors are caught and yield null). -/
def generateSummary (env : ChatEnv) (w : World) (summaryInput : String) :
    Option String × World :=
  match env.geminiApiKey with
  | none => (none, w)
  | some _ =>
      let w := w.pushEvt (.summaryCall summaryInput)
      (env.summaryFn summaryInput, w)

/-- `maybeUpdateSummary` from chatService.ts. -/
def maybeUpdateSummary (env : ChatEnv) (w : World) (userId sessionId : String) :
    World :=
  let sortedMessages :=
    (sortMessagesDesc (messagesOfSession w.db sessionId)).take 50
  if sortedMessages.length < 50 then w
  else
    let summaryInput :=
      String.intercalate "\n"
        (sortedMessages.reverse.map (fun m => coachLine m.role m.content))
    let gen := generateSummary env w summaryInput
    match gen.1 with
    | none => gen.2
    | some summaryText =>
        let w := gen.2
        let existingSummary := getChatMemorySummary w.db userId
        let (now, w) := freshTime env w
        let payload : SummaryDoc :=
          { user_id := userId, summary := summaryText, last_message_at := now }
        match existingSummary with
        | some ex =>
            let summaries2 := dbSetDoc w.db.chat_memory_summaries ex.1 payload
            let w := { w with db := { w.db with chat_memory_summaries := summaries2 } }
            w.pushEvt (.setSummary ex.1 payload)
        | none =>
            let (id, w) := freshDocId env w
            let summaries2 := dbSetDoc w.db.chat_memory_summaries id payload
            let w := { w with db := { w.db with chat_memory_summaries := summaries2 } }
            w.pushEvt (.addSummary id payload)

/-- `toText` from chatService.ts. -/
def toText (value : Option String) (fallback : String) : String :=
  match value with
  | none => fallback
  | some s => if jsTrim s = "" then fallback else jsTrim s

/-- `buildToneGuideTr` from chatService.ts. -/
def buildToneGuideTr (tone : String) : String :=
  match jsToLowerCase (jsTrim tone) with
  | "formal" | "profesyonel" =>
      "Profesyonel, net ve yapılandırılmış bir üslup kullan."
  | "friendly" | "cana_yakin" =>
      "Sıcak, destekleyici ve aile dostu bir üslup kullan."
  | "concise" | "net_ve_kisa" =>
      "Gereksiz uzatmadan, kısa ve net cümlelerle yanıt ver."
  | "inspiring" | "ilham_verici" =>
      "Motive edici ve umut veren bir anlatım kullan."
  | "joyful" | "neseli" | "neşeli" =>
      "Neşeli, pozitif ve enerji veren bir ton kullan."
  | "listener" | "iyi_dinleyici" =>
      "Empatik, nazik ve iyi dinleyen bir rehber gibi konuş."
  | _ => "Neşeli, uyumlu ve ebeveyni güçlendiren bir üslup kullan."

/-- `buildLengthGuideTr` from chatService.ts. -/
def buildLengthGuideTr (length : String) : String :=
  match jsToLowerCase (jsTrim length) with
  | "short" | "kisa" | "kısa" => "Yanıtı kısa ve doğrudan ver."
  | "detailed" | "detayli" | "detaylı" =>
      "Yanıtı detaylı, adım adım ve açıklayıcı ver."
  | _ => "Yanıtı dengeli uzunlukta ver."

/-- `buildEmojiGuideTr` from chatService.ts. -/
def buildEmojiGuideTr (emojiStyle : String) : String :=
  match jsToLowerCase (jsTrim emojiStyle) with
  | "none" | "emoji_yok" | "yok" => "Emoji kullanma."
  | "rich" | "bol_emoji" => "Uygun yerlerde bol ve sıcak emoji kullan."
  | _ => "Dengeli ve ölçülü emoji kullan."

/-- `buildContext` from chatService.ts: the full system-context string. -/
def buildContext (user : UserInfo) (memorySummary : Option SummaryDoc)
    (recentMessages : List MessageDoc) (currentMessage : String)
    (contextTags : Option ContextTags) (imageMeta : Option ImageMeta) :
    String :=
  let userContext := "Kullanıcı: " ++ jsOrStr user.name "Bilinmiyor"
    ++ ", Hedef: " ++ jsOrStr user.goal "maintain"
    ++ ", Boy/Kilo: " ++ jsOrStr user.height_cm "-"
    ++ " / " ++ jsOrStr user.current_weight_kg "-"
  let memory := "Hafıza Özeti: "
    ++ jsOrStr (memorySummary.map (fun s => s.summary))
      "Yeni kullanıcı, sıcak karşıla."
  let childProfile := contextTags.bind (fun t => t.childProfile)
  let childContext :=
    match childProfile with
    | some cp => "Secili Bebek: " ++ jsOrStr cp.name "-"
        ++ ", Cinsiyet: " ++ jsOrStr cp.gender "-"
        ++ ", Dogum Tarihi: " ++ jsOrStr cp.birthDate "-"
    | none => "Secili Bebek: belirtilmedi"
  let personalization := contextTags.bind (fun t => t.chatPersonalization)
  let toneContext :=
    match personalization with
    | some p => "Sohbet Ayari: tone=" ++ jsOrStr p.tone "-"
        ++ ", mood=" ++ jsOrStr p.mood "-"
        ++ ", cevap_uzunlugu=" ++ jsOrStr p.responseLength "-"
        ++ ", emoji=" ++ jsOrStr p.emojiStyle "-"
    | none => "Sohbet Ayari: varsayilan"
  let tone := toText (personalization.bind (fun p => p.tone)) "varsayilan"
  let mood := toText (personalization.bind (fun p => p.mood)) "neseli"
  let responseLength :=
    toText (personalization.bind (fun p => p.responseLength)) "dengeli"
  let emojiStyle :=
    toText (personalization.bind (fun p => p.emojiStyle)) "dengeli"
  let hasImage :=
    match imageMeta with
    | some im => im.mimeType != ""
    | none => false
  let history :=
    String.intercalate "\n"
      (recentMessages.map (fun m => coachLine m.role m.content))
  let babyInstruction :=
    match childProfile with
    | some cp => "Seçili bebek bilgisi: İsim=" ++ toText cp.name "Belirtilmedi"
        ++ ", Cinsiyet=" ++ toText cp.gender "Belirtilmedi"
        ++ ", Doğum Tarihi=" ++ toText cp.birthDate "Belirtilmedi"
        ++ ". Yanıtını bu bebeğe göre kişiselleştir."
    | none => "Seçili bebek yok. Ebeveyni genel ve güvenli şekilde yönlendir."
  String.intercalate "\n"
    [ "ROL:",
      "Sen \x27Bebek AI\x27 adında, ebeveynlere destek veren uzman bir bebek gelişimi ve ebeveynlik asistanısın.",
      "",
      "ZORUNLU DİL KURALI:",
      "- Tüm yanıtlar sadece Türkçe olmalı.",
      "- İngilizce terim gerekiyorsa kısa Türkçe açıklamasıyla birlikte ver.",
      "",
      "KİŞİSELLEŞTİRME TALİMATLARI:",
      "- Ton: " ++ buildToneGuideTr tone,
      "- Ruh Hali (Mood): " ++ mood ++ " (yanıta bu havayı doğal şekilde yansıt).",
      "- Uzunluk: " ++ buildLengthGuideTr responseLength,
      "- Emoji: " ++ buildEmojiGuideTr emojiStyle,
      "",
      "BEBEK BAĞLAMI:",
      "- " ++ babyInstruction,
      "",
      "GÜVENLİK KURALLARI:",
      "- Önce güvenlik: Acil risk olabilecek belirtilerde nazikçe doktora/acile yönlendir.",
      "- Spesifik ilaç dozu veya tıbbi reçete verme.",
      "- Kesin tanı koyma; bilgilendirici ve yönlendirici kal.",
      "",
      "GÖRSEL KURALI:",
      (if hasImage then
        "- Kullanıcı görsel paylaştı. Görselde gördüğün ifadeyi/bağlamı Türkçe ve nazik biçimde yorumla; kesin tıbbi tanı koyma."
      else "- Bu istekte görsel yok."),
      "",
      "EK BAĞLAM:",
      "- " ++ userContext,
      "- " ++ childContext,
      "- " ++ toneContext,
      "- " ++ memory,
      "",
      "SON KONUŞMALAR:",
      (if history = "" then "-" else history),
      "",
      "YENİ MESAJ: " ++ currentMessage ]

/-- `createChatSession` from chatService.ts. -/
def createChatSession (env : ChatEnv) (w : World) (userId : String) :
    (String × SessionFields) × World :=
  let (now, w) := freshTime env w
  let session : SessionFields :=
    { user_id := some userId, status := some "open",
      created_at := some now, updated_at := some now }
  let (id, w) := freshDocId env w
  let sessions2 := dbSetDoc w.db.chat_sessions id session
  let w := { w with db := { w.db with chat_sessions := sessions2 } }
  let w := w.pushEvt (.addSession id session)
  ((id, session), w)

/-- Result of `prepareChatContext`. -/
structure PrepResult where
  sessionId : String
  userMessageId : String
  context : String
  history : List ChatHistoryItem

/-- `prepareChatContext` from chatService.ts: resolve or create the
session, persist the user message, read the recent messages and the
memory summary, and assemble the context and history. -/
def prepareChatContext (env : ChatEnv) (w : World) (user : UserInfo)
    (sessionId : Option String) (message : String)
    (contextTags : Option ContextTags) (imageMeta : Option ImageMeta) :
    PrepResult × World :=
  let sw : String × World :=
    match sessionId with
    | some sid => (sid, w)
    | none =>
        let r := createChatSession env w user.id
        (r.1.1, r.2)
  let sid := sw.1
  let w := sw.2
  let (now, w) := freshTime env w
  let (userMessageId, w) := freshUuid env w
  let doc : MessageDoc :=
    { id := userMessageId, session_id := sid, role := "user",
      content := message, metadata := contextTags, image := imageMeta,
      created_at := now }
  let messages2 := dbSetDoc w.db.chat_messages userMessageId doc
  let w := { w with db := { w.db with chat_messages := messages2 } }
  let w := w.pushEvt (.setMessage userMessageId doc)
  let recentMessages :=
    ((sortMessagesDesc (messagesOfSession w.db sid)).take 20).reverse
  let memorySummary := (getChatMemorySummary w.db user.id).map Prod.snd
  let context :=
    buildContext user memorySummary recentMessages message contextTags imageMeta
  let history := recentMessages.map (fun m =>
    ({ role := m.role, content := m.content } : ChatHistoryItem))
  ({ sessionId := sid, userMessageId := userMessageId, context := context,
     history := history }, w)

/-- `generateCoachResponse` from geminiService.ts: throws without an API
key, posts system instruction plus contents, throws on an empty candidate
text, else returns the trimmed text. -/
def generateCoachResponse (env : ChatEnv) (w : World) (context : String)
    (history : List ChatHistoryItem) (image : Option InlineImagePayload) :
    Except String String × World :=
  match env.geminiApiKey with
  | none => (.error "GEMINI_API_KEY is not configured", w)
  | some _ =>
      let contents := buildGeminiContents history image
      let body : GeminiRequestBody :=
        { systemText := BIG_SYSTEM_PROMPT ++ "\n\nCONTEXT:\n" ++ context,
          contents := contents }
      let w := w.pushEvt (.coachCall body)
      match env.coachFn body with
      | .error e => (.error e, w)
      | .ok text =>
          if text = "" then (.error "Gemini returned empty response", w)
          else (.ok (jsTrim text), w)

/-- Return value of `handleChatMessage`. -/
structure HandleChatResult where
  reply : String
  sessionId : String
deriving Repr, DecidableEq

/-- The document writes of the persistence block: the assistant message
set and the `updated_at` session merge. -/
def finalizeWrites (env : ChatEnv) (w : World)
    (sessionId assistantMessageId : String)
    (contextTags : Option ContextTags) (content : String) : World :=
  let (now, w) := freshTime env w
  let doc : MessageDoc :=
    { id := assistantMessageId, session_id := sessionId, role := "assistant",
      content := content, metadata := contextTags, image := none,
      created_at := now }
  let messages2 := dbSetDoc w.db.chat_messages assistantMessageId doc
  let w := { w with db := { w.db with chat_messages := messages2 } }
  let w := w.pushEvt (.setMessage assistantMessageId doc)
  let (now2, w) := freshTime env w
  let payload : SessionFields := { updated_at := some now2 }
  let sessions2 := mergeSessionDoc w.db.chat_sessions sessionId payload
  let w := { w with db := { w.db with chat_sessions := sessions2 } }
  w.pushEvt (.mergeSession sessionId payload)

/-- The persistence block shared by `handleChatMessage` and the streaming
`finalizeAndPersist`: write the assistant message, merge `updated_at`
into the session, and run `maybeUpdateSummary`. -/
def finalizeAndPersist (env : ChatEnv) (w : World)
    (userId sessionId assistantMessageId : String)
    (contextTags : Option ContextTags) (content : String) : World :=
  maybeUpdateSummary env
    (finalizeWrites env w sessionId assistantMessageId contextTags content)
    userId sessionId

/-- `handleChatMessage` from chatService.ts. -/
def handleChatMessage (env : ChatEnv) (w : World) (user : UserInfo)
    (sessionId : Option String) (message : String)
    (contextTags : Option ContextTags)
    (imagePayload : Option InlineImagePayload) :
    Except String HandleChatResult × World :=
  let imageMeta := imagePayload.map (fun p => ({ mimeType := p.mimeType } : ImageMeta))
  let pr := prepareChatContext env w user sessionId message contextTags imageMeta
  let prep := pr.1
  if shouldRefuseCoachRequest message then
    let (assistantMessageId, w) := freshUuid env pr.2
    (.ok { reply := COACH_REFUSAL_MESSAGE, sessionId := prep.sessionId },
     finalizeAndPersist env w user.id prep.sessionId assistantMessageId
       contextTags COACH_REFUSAL_MESSAGE)
  else
    let gen := generateCoachResponse env pr.2 prep.context prep.history imagePayload
    match gen.1 with
    | .error e => (.error e, gen.2)
    | .ok replyText =>
        let (assistantMessageId, w) := freshUuid env gen.2
        (.ok { reply := replyText, sessionId := prep.sessionId },
         finalizeAndPersist env w user.id prep.sessionId assistantMessageId
           contextTags replyText)

/-- `streamCoachResponse` from geminiService.ts as the chat service sees
it: post the streaming request, feed the received chunks through the SSE
reassembler, and either resolve with the trimmed fullText (after the
leftover buffer) or reject.  The second component is the list of onDelta
calls made. -/
def streamCoachResponse (env : ChatEnv) (w : World) (context : String)
    (history : List ChatHistoryItem) (image : Option InlineImagePayload) :
    Except String String × List (String × String) × World :=
  match env.geminiApiKey with
  | none => (.error "GEMINI_API_KEY is not configured", [], w)
  | some _ =>
      let contents := buildGeminiContents history image
      let body : GeminiRequestBody :=
        { systemText := BIG_SYSTEM_PROMPT ++ "\n\nCONTEXT:\n" ++ context,
          contents := contents }
      let w := w.pushEvt (.streamRequest body)
      let st := sseRun env.parseJson env.streamChunks
      match env.streamErr with
      | some e => (.error e, st.calls, w)
      | none =>
          let fin := sseFinish env.parseJson st
          (.ok fin.1, fin.2.calls, w)

/-- Identifiers returned by `handleChatMessageStream` before `run` starts. -/
structure StreamSetup where
  sessionId : String
  messageId : String
deriving Repr, DecidableEq

/-- `handleChatMessageStream` from chatService.ts with its `run` closure
already executed (the chat route fires `run` immediately after
responding).  The middle component is the rejection state of the `run`
promise. -/
def handleChatMessageStreamRun (env : ChatEnv) (w : World) (user : UserInfo)
    (sessionId : Option String) (message : String)
    (contextTags : Option ContextTags)
    (imagePayload : Option InlineImagePayload) :
    StreamSetup × Except String Unit × World :=
  let imageMeta := imagePayload.map (fun p => ({ mimeType := p.mimeType } : ImageMeta))
  let pr := prepareChatContext env w user sessionId message contextTags imageMeta
  let prep := pr.1
  let (assistantMessageId, w) := freshUuid env pr.2
  let setup : StreamSetup :=
    { sessionId := prep.sessionId, messageId := assistantMessageId }
  let sendChunk := fun (w : World) (payload : WsChunkPayload) =>
    w.pushEvt (.wsSend user.id prep.sessionId assistantMessageId payload)
  if shouldRefuseCoachRequest message then
    let w := sendChunk w
      { delta := some COACH_REFUSAL_MESSAGE, isFinal := some true,
        content := some COACH_REFUSAL_MESSAGE }
    let w := finalizeAndPersist env w user.id prep.sessionId
      assistantMessageId contextTags COACH_REFUSAL_MESSAGE
    (setup, .ok (), w)
  else
    let str := streamCoachResponse env w prep.context prep.history imagePayload
    let calls := str.2.1
    let w := calls.foldl
      (fun w c => sendChunk w { delta := some c.1 }) str.2.2
    let sentAny := !calls.isEmpty
    let latestFromCalls := ((calls.getLast?).map Prod.snd).getD ""
    match str.1 with
    | .ok resolved =>
        let finalText := resolved
        let w := sendChunk w { content := some finalText, isFinal := some true }
        let w := finalizeAndPersist env w user.id prep.sessionId
          assistantMessageId contextTags finalText
        (setup, .ok (), w)
    | .error _ =>
        if !sentAny then
          let gen := generateCoachResponse env w prep.context prep.history
            imagePayload
          match gen.1 with
          | .ok fallback =>
              let w := sendChunk gen.2
                { content := some fallback, delta := some fallback,
                  isFinal := some true }
              let w := finalizeAndPersist env w user.id prep.sessionId
                assistantMessageId contextTags fallback
              (setup, .ok (), w)
          | .error e2 => (setup, .error e2, gen.2)
        else
          let w := sendChunk w
            { error := some "Streaming failed", isFinal := some true,
              content := some latestFromCalls }
          let w :=
            if latestFromCalls ≠ "" then
              finalizeAndPersist env w user.id prep.sessionId
                assistantMessageId contextTags latestFromCalls
            else w
          (setup, .ok (), w)

/-- Return value of `deleteChatSession`. -/
structure DeleteResult where
  deleted : Bool
  reason : Option String := none
  messagesDeleted : Option Nat := none
deriving Repr, DecidableEq

/-- `deleteChatSession` from chatService.ts: ownership-checked delete of
the session document and all its chat_messages in one batch. -/
def deleteChatSession (w : World) (userId sessionId : String) :
    DeleteResult × World :=
  match w.db.chat_sessions.lookup sessionId with
  | none => ({ deleted := false, reason := some "not_found" }, w)
  | some sessionData =>
      if sessionData.user_id ≠ some userId then
        ({ deleted := false, reason := some "forbidden" }, w)
      else
        let messages :=
          w.db.chat_messages.filter (fun kv => kv.2.session_id == sessionId)
        let w := { w with db :=
          { w.db with
            chat_messages :=
              w.db.chat_messages.filter (fun kv => kv.2.session_id != sessionId),
            chat_sessions :=
              w.db.chat_sessions.filter (fun kv => kv.1 != sessionId) } }
        let w := (messages.foldl
          (fun w kv => w.pushEvt (.deleteMessageDoc kv.1)) w).pushEvt
          (.deleteSessionDoc sessionId)
        ({ deleted := true, messagesDeleted := some messages.length }, w)

/-- Return value of `renameChatSession`. -/
structure RenameResult where
  updated : Bool
  reason : Option String := none
deriving Repr, DecidableEq

/-- `renameChatSession` from chatService.ts: ownership-checked merge write
of the trimmed custom_title and a fresh updated_at. -/
def renameChatSession (env : ChatEnv) (w : World)
    (userId sessionId title : String) : RenameResult × World :=
  match w.db.chat_sessions.lookup sessionId with
  | none => ({ updated := false, reason := some "not_found" }, w)
  | some sessionData =>
      if sessionData.user_id ≠ some userId then
        ({ updated := false, reason := some "forbidden" }, w)
      else
        let (now, w) := freshTime env w
        let payload : SessionFields :=
          { custom_title := some (jsTrim title), updated_at := some now }
        let sessions2 := mergeSessionDoc w.db.chat_sessions sessionId payload
        let w := { w with db := { w.db with chat_sessions := sessions2 } }
        let w := w.pushEvt (.mergeSession sessionId payload)
        ({ updated := true }, w)


/-! ### C9 theorem -/

theorem foldl_pushEvt_db {α : Type} (l : List α) (f : α → ChatEvt) :
    ∀ w : World, (l.foldl (fun w a => w.pushEvt (f a)) w).db = w.db := by
  induction l with
  | nil => intro w; rfl
  | cons x xs ih => intro w; exact ih (w.pushEvt (f x))

/-- C9: deleteChatSession and renameChatSession enforce ownership and are
atomic on error: each returns not_found when the session document does not
exist, forbidden when its user_id differs from the caller, and in both
error cases the world is unchanged; a successful delete removes the
session document together with all chat_messages of that session in one
batch and counts them; a successful rename writes only the trimmed
custom_title and a fresh updated_at to that one session document. -/
theorem deleteChatSession_renameChatSession_ownership
    (env : ChatEnv) (w : World) (userId sessionId title : String) :
    (w.db.chat_sessions.lookup sessionId = none →
      deleteChatSession w userId sessionId =
        ({ deleted := false, reason := some "not_found" }, w) ∧
      renameChatSession env w userId sessionId title =
        ({ updated := false, reason := some "not_found" }, w)) ∧
    (∀ data, w.db.chat_sessions.lookup sessionId = some data →
      data.user_id ≠ some userId →
      deleteChatSession w userId sessionId =
        ({ deleted := false, reason := some "forbidden" }, w) ∧
      renameChatSession env w userId sessionId title =
        ({ updated := false, reason := some "forbidden" }, w)) ∧
    (∀ data, w.db.chat_sessions.lookup sessionId = some data →
      data.user_id = some userId →
      (deleteChatSession w userId sessionId).1 =
        { deleted := true, reason := none,
          messagesDeleted := some (w.db.chat_messages.filter
            (fun kv => kv.2.session_id == sessionId)).length } ∧
      (deleteChatSession w userId sessionId).2.db.chat_sessions =
        w.db.chat_sessions.filter (fun kv => kv.1 != sessionId) ∧
      (deleteChatSession w userId sessionId).2.db.chat_messages =
        w.db.chat_messages.filter (fun kv => kv.2.session_id != sessionId) ∧
      (deleteChatSession w userId sessionId).2.db.chat_memory_summaries =
        w.db.chat_memory_summaries) ∧
    (∀ data, w.db.chat_sessions.lookup sessionId = some data →
      data.user_id = some userId →
      (renameChatSession env w userId sessionId title).1 =
        { updated := true, reason := none } ∧
      (renameChatSession env w userId sessionId
          title).2.db.chat_sessions.lookup sessionId =
        some { data with custom_title := some (jsTrim title),
                         updated_at := some (env.times w.timeIx) } ∧
      (∀ idq, idq ≠ sessionId →
        (renameChatSession env w userId sessionId
            title).2.db.chat_sessions.lookup idq =
          w.db.chat_sessions.lookup idq) ∧
      (renameChatSession env w userId sessionId title).2.db.chat_messages =
        w.db.chat_messages ∧
      (renameChatSession env w userId sessionId
          title).2.db.chat_memory_summaries =
        w.db.chat_memory_summaries) := by
  refine ⟨?_, ?_, ?_, ?_⟩
  · intro h
    constructor
    · simp only [deleteChatSession, h]
    · simp only [renameChatSession, h]
  · intro data h hne
    constructor
    · simp only [deleteChatSession, h]
      rw [if_pos hne]
    · simp only [renameChatSession, h]
      rw [if_pos hne]
  · intro data h howner
    have hcond : ¬ (data.user_id ≠ some userId) := fun hc => hc howner
    simp only [deleteChatSession, h]
    rw [if_neg hcond]
    have hpush : ∀ (x : World) (e : ChatEvt), (World.pushEvt x e).db = x.db :=
      fun _ _ => rfl
    refine ⟨rfl, ?_, ?_, ?_⟩
    · rw [hpush, foldl_pushEvt_db]
    · rw [hpush, foldl_pushEvt_db]
    · rw [hpush, foldl_pushEvt_db]
  · intro data h howner
    have hcond : ¬ (data.user_id ≠ some userId) := fun hc => hc howner
    simp only [renameChatSession, h]
    rw [if_neg hcond]
    refine ⟨rfl, ?_, ?_, rfl, rfl⟩
    · simp only [freshTime, World.pushEvt, mergeSessionDoc, h]
      rw [lookup_dbSetDoc_self]
      simp [mergeSessionFields, ov]
    · intro idq hidq
      simp only [freshTime, World.pushEvt, mergeSessionDoc, h]
      rw [lookup_dbSetDoc_ne _ _ _ _ hidq]

/-- Witness for C9: a one-session store where a rename by the owner
updates exactly the title and timestamp. -/
theorem deleteChatSession_renameChatSession_ownership_witness :
    (renameChatSession
      { geminiApiKey := none, coachFn := fun _ => .error "",
        summaryFn := fun _ => none, streamChunks := [], streamErr := none,
        parseJson := fun _ => none, uuids := fun _ => "u",
        docIds := fun _ => "d", times := fun _ => 7 }
      { db := { chat_sessions := [("s1",
          { user_id := some "alice", status := some "open",
            created_at := some 1, updated_at := some 1 })] },
        trace := [] }
      "alice" "s1" "  Yeni Baslik ").1 = { updated := true, reason := none } ∧
    (renameChatSession
      { geminiApiKey := none, coachFn := fun _ => .error "",
        summaryFn := fun _ => none, streamChunks := [], streamErr := none,
        parseJson := fun _ => none, uuids := fun _ => "u",
        docIds := fun _ => "d", times := fun _ => 7 }
      { db := { chat_sessions := [("s1",
          { user_id := some "alice", status := some "open",
            created_at := some 1, updated_at := some 1 })] },
        trace := [] }
      "alice" "s1" "  Yeni Baslik ").2.db.chat_sessions.lookup "s1" =
      some { user_id := some "alice", status := some "open",
             custom_title := some "Yeni Baslik",
             created_at := some 1, updated_at := some 7 } := by
  have h := (deleteChatSession_renameChatSession_ownership
    { geminiApiKey := none, coachFn := fun _ => .error "",
      summaryFn := fun _ => none, streamChunks := [], streamErr := none,
      parseJson := fun _ => none, uuids := fun _ => "u",
      docIds := fun _ => "d", times := fun _ => 7 }
    { db := { chat_sessions := [("s1",
        { user_id := some "alice", status := some "open",
          created_at := some 1, updated_at := some 1 })] },
      trace := [] }
    "alice" "s1" "  Yeni Baslik ").2.2.2
    { user_id := some "alice", status := some "open",
      created_at := some 1, updated_at := some 1 } rfl rfl
  exact ⟨h.1, h.2.1⟩


/-! ### Trace discriminators and spec lemmas for the chat handlers -/

/-- The effect is a chat_messages document write. -/
def ChatEvt.isSetMessage : ChatEvt → Bool
  | .setMessage _ _ => true
  | _ => false

/-- The effect is a provider call made to obtain a reply (generateContent
or streamGenerateContent). -/
def ChatEvt.isProviderReplyCall : ChatEvt → Bool
  | .coachCall _ => true
  | .streamRequest _ => true
  | _ => false

/-- The effect writes an assistant-role chat message. -/
def ChatEvt.isAssistantWrite : ChatEvt → Bool
  | .setMessage _ doc => doc.role == "assistant"
  | _ => false

theorem isAssistantWrite_false_of_not_set (e : ChatEvt)
    (h : e.isSetMessage = false) : e.isAssistantWrite = false := by
  cases e <;> simp_all [ChatEvt.isSetMessage, ChatEvt.isAssistantWrite]

/-- An effect kind that neither writes chat_messages nor calls the reply
provider. -/
def ChatEvt.isQuiet (e : ChatEvt) : Prop :=
  e.isSetMessage = false ∧ e.isProviderReplyCall = false

theorem maybeUpdateSummary_trace (env : ChatEnv) (w : World)
    (uid sid : String) :
    ∃ extra, (maybeUpdateSummary env w uid sid).trace = w.trace ++ extra ∧
      ∀ e ∈ extra, e.isQuiet := by
  simp only [maybeUpdateSummary, generateSummary, freshTime, freshDocId]
  split
  · exact ⟨[], by simp, by simp⟩
  · cases hk : env.geminiApiKey with
    | none => exact ⟨[], by simp, by simp⟩
    | some key =>
        simp only []
        split
        · refine ⟨_, rfl, ?_⟩
          intro e he
          simp only [List.mem_singleton] at he
          subst he
          exact ⟨rfl, rfl⟩
        · split
          · refine ⟨_, by simp only [World.pushEvt, List.append_assoc]; rfl, ?_⟩
            intro e he
            simp only [List.mem_append, List.mem_singleton] at he
            rcases he with he | he <;> subst he <;> exact ⟨rfl, rfl⟩
          · refine ⟨_, by simp only [World.pushEvt, List.append_assoc]; rfl, ?_⟩
            intro e he
            simp only [List.mem_append, List.mem_singleton] at he
            rcases he with he | he <;> subst he <;> exact ⟨rfl, rfl⟩


theorem finalizeWrites_trace (env : ChatEnv) (w : World)
    (sid aid : String) (ctags : Option ContextTags) (content : String) :
    ∃ (adoc : MessageDoc) (tstamp : Nat),
      (finalizeWrites env w sid aid ctags content).trace =
        w.trace ++ [ChatEvt.setMessage aid adoc,
          ChatEvt.mergeSession sid { updated_at := some tstamp }] ∧
      adoc.role = "assistant" ∧ adoc.session_id = sid ∧
      adoc.content = content ∧ adoc.id = aid ∧ adoc.metadata = ctags := by
  refine ⟨_, _,
    by simp only [finalizeWrites, freshTime, World.pushEvt,
      List.append_assoc]; rfl, rfl, rfl, rfl, rfl, rfl⟩

theorem finalizeAndPersist_trace (env : ChatEnv) (w : World)
    (uid sid aid : String) (ctags : Option ContextTags) (content : String) :
    ∃ (adoc : MessageDoc) (tstamp : Nat) (extra : List ChatEvt),
      (finalizeAndPersist env w uid sid aid ctags content).trace =
        w.trace ++ (ChatEvt.setMessage aid adoc ::
          ChatEvt.mergeSession sid { updated_at := some tstamp } :: extra) ∧
      adoc.role = "assistant" ∧ adoc.session_id = sid ∧
      adoc.content = content ∧ adoc.id = aid ∧ adoc.metadata = ctags ∧
      (∀ e ∈ extra, e.isQuiet) := by
  obtain ⟨adoc, tstamp, htrace, h1, h2, h3, h4, h5⟩ :=
    finalizeWrites_trace env w sid aid ctags content
  obtain ⟨extra, hsum, hquiet⟩ := maybeUpdateSummary_trace env
    (finalizeWrites env w sid aid ctags content) uid sid
  refine ⟨adoc, tstamp, extra, ?_, h1, h2, h3, h4, h5, hquiet⟩
  show (maybeUpdateSummary env
    (finalizeWrites env w sid aid ctags content) uid sid).trace = _
  rw [hsum, htrace, List.append_assoc]
  rfl

theorem generateCoachResponse_trace (env : ChatEnv) (w : World)
    (context : String) (history : List ChatHistoryItem)
    (image : Option InlineImagePayload) :
    ∃ extra, (generateCoachResponse env w context history image).2.trace =
        w.trace ++ extra ∧
      ∀ e ∈ extra, e.isSetMessage = false := by
  simp only [generateCoachResponse]
  split
  · exact ⟨[], by simp, by simp⟩
  · refine ⟨[ChatEvt.coachCall
      { systemText := BIG_SYSTEM_PROMPT ++ "\n\nCONTEXT:\n" ++ context,
        contents := buildGeminiContents history image }], ?_, ?_⟩
    · split
      · rfl
      · split <;> rfl
    · intro e he
      simp only [List.mem_singleton] at he
      subst he
      rfl

theorem prepareChatContext_trace (env : ChatEnv) (w : World) (user : UserInfo)
    (sessionId : Option String) (message : String)
    (ctags : Option ContextTags) (imageMeta : Option ImageMeta) :
    ∃ (sessionEvts : List ChatEvt) (udoc : MessageDoc),
      (prepareChatContext env w user sessionId message ctags
          imageMeta).2.trace =
        w.trace ++ sessionEvts ++
          [ChatEvt.setMessage
            (prepareChatContext env w user sessionId message ctags
              imageMeta).1.userMessageId udoc] ∧
      udoc.role = "user" ∧
      udoc.session_id =
        (prepareChatContext env w user sessionId message ctags
          imageMeta).1.sessionId ∧
      udoc.content = message ∧ udoc.metadata = ctags ∧
      (∀ e ∈ sessionEvts, e.isQuiet) ∧
      (sessionId = none → ∃ sdoc, sessionEvts =
        [ChatEvt.addSession
          (prepareChatContext env w user sessionId message ctags
            imageMeta).1.sessionId sdoc] ∧
        sdoc.status = some "open") ∧
      (∀ sid0, sessionId = some sid0 → sessionEvts = [] ∧
        (prepareChatContext env w user sessionId message ctags
          imageMeta).1.sessionId = sid0) := by
  cases sessionId with
  | some sid =>
      refine ⟨[],
        { id := env.uuids w.uuidIx, session_id := sid, role := "user",
          content := message, metadata := ctags, image := imageMeta,
          created_at := env.times w.timeIx },
        ?_, rfl, rfl, rfl, rfl, ?_, ?_, ?_⟩
      · simp only [prepareChatContext, freshTime, freshUuid, World.pushEvt,
          List.append_nil]
      · simp
      · intro h
        simp at h
      · intro sid0 h
        injection h with h2
        subst h2
        exact ⟨rfl, rfl⟩
  | none =>
      refine ⟨[ChatEvt.addSession (env.docIds w.docIx)
          { user_id := some user.id, status := some "open",
            created_at := some (env.times w.timeIx),
            updated_at := some (env.times w.timeIx) }],
        { id := env.uuids w.uuidIx, session_id := env.docIds w.docIx,
          role := "user", content := message, metadata := ctags,
          image := imageMeta, created_at := env.times (w.timeIx + 1) },
        ?_, rfl, rfl, rfl, rfl, ?_, ?_, ?_⟩
      · simp only [prepareChatContext, createChatSession, freshTime,
          freshDocId, freshUuid, World.pushEvt, List.append_assoc]
      · intro e he
        simp only [List.mem_singleton] at he
        subst he
        exact ⟨rfl, rfl⟩
      · intro _
        exact ⟨_, rfl, rfl⟩
      · intro sid0 h
        simp at h


theorem countP_assistant_decomposition
    (sessionEvts providerEvts summaryEvts : List ChatEvt)
    (uid aid sid : String) (udoc adoc : MessageDoc) (tstamp : Nat)
    (hu : udoc.role = "user") (ha : adoc.role = "assistant")
    (hs : ∀ e ∈ sessionEvts, e.isQuiet)
    (hp : ∀ e ∈ providerEvts, e.isSetMessage = false)
    (hm : ∀ e ∈ summaryEvts, e.isQuiet) :
    (sessionEvts ++ ChatEvt.setMessage uid udoc ::
      (providerEvts ++ ChatEvt.setMessage aid adoc ::
        ChatEvt.mergeSession sid { updated_at := some tstamp } ::
        summaryEvts)).countP ChatEvt.isAssistantWrite = 1 := by
  have h1 : sessionEvts.countP ChatEvt.isAssistantWrite = 0 :=
    List.countP_eq_zero.mpr (fun e he => by
      simp [isAssistantWrite_false_of_not_set e (hs e he).1])
  have h2 : providerEvts.countP ChatEvt.isAssistantWrite = 0 :=
    List.countP_eq_zero.mpr (fun e he => by
      simp [isAssistantWrite_false_of_not_set e (hp e he)])
  have h3 : summaryEvts.countP ChatEvt.isAssistantWrite = 0 :=
    List.countP_eq_zero.mpr (fun e he => by
      simp [isAssistantWrite_false_of_not_set e (hm e he).1])
  have hud : ChatEvt.isAssistantWrite (ChatEvt.setMessage uid udoc) = false := by
    simp [ChatEvt.isAssistantWrite, hu]
  have had : ChatEvt.isAssistantWrite (ChatEvt.setMessage aid adoc) = true := by
    simp [ChatEvt.isAssistantWrite, ha]
  have hmd : ChatEvt.isAssistantWrite
      (ChatEvt.mergeSession sid { updated_at := some tstamp }) = false := rfl
  simp [List.countP_append, List.countP_cons, h1, h2, h3, hud, had, hmd]

/-- C5: every successful non-streaming chat exchange persists its records:
handleChatMessage writes the user message (with the resulting session id) to
chat_messages before any provider call, writes exactly one assistant
message carrying the reply text and the same session id afterwards,
merges a fresh updated_at into the chat_sessions document, and when no
sessionId was supplied a new session document with status "open" is
created before the user message is stored. -/
theorem handleChatMessage_persists_exchange
    (env : ChatEnv) (w : World) (user : UserInfo) (sessionId : Option String)
    (message : String) (ctags : Option ContextTags)
    (img : Option InlineImagePayload) (r : HandleChatResult)
    (htr : w.trace = [])
    (hok : (handleChatMessage env w user sessionId message ctags img).1 =
      .ok r) :
    ∃ (sessionEvts providerEvts summaryEvts : List ChatEvt)
      (uid aid : String) (udoc adoc : MessageDoc) (tstamp : Nat),
      (handleChatMessage env w user sessionId message ctags img).2.trace =
        sessionEvts ++ ChatEvt.setMessage uid udoc ::
          (providerEvts ++ ChatEvt.setMessage aid adoc ::
            ChatEvt.mergeSession r.sessionId { updated_at := some tstamp } ::
            summaryEvts) ∧
      udoc.role = "user" ∧ udoc.session_id = r.sessionId ∧
      udoc.content = message ∧
      adoc.role = "assistant" ∧ adoc.session_id = r.sessionId ∧
      adoc.content = r.reply ∧
      (∀ e ∈ sessionEvts, e.isQuiet) ∧
      (∀ e ∈ providerEvts, e.isSetMessage = false) ∧
      (∀ e ∈ summaryEvts, e.isQuiet) ∧
      (handleChatMessage env w user sessionId message ctags
        img).2.trace.countP ChatEvt.isAssistantWrite = 1 ∧
      (sessionId = none → ∃ sdoc,
        sessionEvts = [ChatEvt.addSession r.sessionId sdoc] ∧
        sdoc.status = some "open") ∧
      (∀ sid0, sessionId = some sid0 →
        sessionEvts = [] ∧ r.sessionId = sid0) := by
  obtain ⟨sessionEvts, udoc, hptrace, hurole, husess, hucontent, humeta,
    hpquiet, hpnone, hpsome⟩ :=
    prepareChatContext_trace env w user sessionId message ctags
      (img.map (fun p => ({ mimeType := p.mimeType } : ImageMeta)))
  set P := prepareChatContext env w user sessionId message ctags
    (img.map (fun p => ({ mimeType := p.mimeType } : ImageMeta))) with hP
  by_cases href : shouldRefuseCoachRequest message = true
  · -- refusal path: the exchange is still persisted, with the fixed reply
    have hres1 : (handleChatMessage env w user sessionId message ctags
        img).1 = .ok ⟨COACH_REFUSAL_MESSAGE, P.1.sessionId⟩ := by
      rw [hP]
      simp only [handleChatMessage, href, if_true, freshUuid]
    rw [hres1] at hok
    injection hok with hreq
    have hrr : r.reply = COACH_REFUSAL_MESSAGE := by rw [← hreq]
    have hrs : r.sessionId = P.1.sessionId := by rw [← hreq]
    rw [hrs, hrr]
    obtain ⟨adoc, tstamp, extra, hfmain, harole, hasess, hacontent, haid,
      hameta, hextra⟩ :=
      finalizeAndPersist_trace env (freshUuid env P.2).2 user.id
        P.1.sessionId (freshUuid env P.2).1 ctags COACH_REFUSAL_MESSAGE
    have htrace2 : (handleChatMessage env w user sessionId message ctags
        img).2.trace =
        sessionEvts ++ ChatEvt.setMessage P.1.userMessageId udoc ::
          ([] ++ ChatEvt.setMessage (freshUuid env P.2).1 adoc ::
            ChatEvt.mergeSession P.1.sessionId
              { updated_at := some tstamp } :: extra) := by
      have hw2 : (handleChatMessage env w user sessionId message ctags
          img).2 = finalizeAndPersist env (freshUuid env P.2).2 user.id
            P.1.sessionId (freshUuid env P.2).1 ctags
            COACH_REFUSAL_MESSAGE := by
        rw [hP]
        simp only [handleChatMessage, href, if_true, freshUuid]
      rw [hw2, hfmain]
      have hfu : ((freshUuid env P.2).2).trace = P.2.trace := rfl
      rw [hfu, hptrace, htr]
      simp
    refine ⟨sessionEvts, [], extra, P.1.userMessageId,
      (freshUuid env P.2).1, udoc, adoc, tstamp, htrace2, hurole, husess,
      hucontent, harole, hasess, hacontent, hpquiet, by simp, hextra,
      ?_, ?_, ?_⟩
    · rw [htrace2]
      exact countP_assistant_decomposition sessionEvts [] extra
        P.1.userMessageId (freshUuid env P.2).1 P.1.sessionId udoc adoc
        tstamp hurole harole hpquiet (by simp) hextra
    · exact hpnone
    · exact hpsome
  · -- normal path via generateCoachResponse
    have href2 : shouldRefuseCoachRequest message = false := by
      simpa using href
    cases hg : (generateCoachResponse env P.2 P.1.context P.1.history
        img).1 with
    | error e =>
        exfalso
        have hbad : (handleChatMessage env w user sessionId message ctags
            img).1 = .error e := by
          rw [hP] at hg
          simp only [handleChatMessage, href2, Bool.false_eq_true, if_false,
            hg]
        rw [hbad] at hok
        exact Except.noConfusion hok
    | ok replyText =>
        obtain ⟨extraG, hgt, hgfree⟩ := generateCoachResponse_trace env P.2
          P.1.context P.1.history img
        have hres1 : (handleChatMessage env w user sessionId message ctags
            img).1 = .ok ⟨replyText, P.1.sessionId⟩ := by
          rw [hP] at hg ⊢
          simp only [handleChatMessage, href2, Bool.false_eq_true, if_false,
            hg, freshUuid]
        rw [hres1] at hok
        injection hok with hreq
        have hrr : r.reply = replyText := by rw [← hreq]
        have hrs : r.sessionId = P.1.sessionId := by rw [← hreq]
        rw [hrs, hrr]
        obtain ⟨adoc, tstamp, extra, hfmain, harole, hasess, hacontent, haid,
          hameta, hextra⟩ :=
          finalizeAndPersist_trace env
            (freshUuid env (generateCoachResponse env P.2 P.1.context
              P.1.history img).2).2
            user.id P.1.sessionId
            (freshUuid env (generateCoachResponse env P.2 P.1.context
              P.1.history img).2).1
            ctags replyText
        have htrace2 : (handleChatMessage env w user sessionId message ctags
            img).2.trace =
            sessionEvts ++ ChatEvt.setMessage P.1.userMessageId udoc ::
              (extraG ++ ChatEvt.setMessage
                (freshUuid env (generateCoachResponse env P.2 P.1.context
                  P.1.history img).2).1 adoc ::
                ChatEvt.mergeSession P.1.sessionId
                  { updated_at := some tstamp } :: extra) := by
          have hw2 : (handleChatMessage env w user sessionId message ctags
              img).2 = finalizeAndPersist env
                (freshUuid env (generateCoachResponse env P.2 P.1.context
                  P.1.history img).2).2
                user.id P.1.sessionId
                (freshUuid env (generateCoachResponse env P.2 P.1.context
                  P.1.history img).2).1
                ctags replyText := by
            rw [hP] at hg ⊢
            simp only [handleChatMessage, href2, Bool.false_eq_true,
              if_false, hg, freshUuid]
          rw [hw2, hfmain]
          have hfu : ((freshUuid env (generateCoachResponse env P.2
              P.1.context P.1.history img).2).2).trace =
              (generateCoachResponse env P.2 P.1.context P.1.history
                img).2.trace := rfl
          rw [hfu, hgt, hptrace, htr]
          simp
        refine ⟨sessionEvts, extraG, extra, P.1.userMessageId,
          (freshUuid env (generateCoachResponse env P.2 P.1.context
            P.1.history img).2).1,
          udoc, adoc, tstamp, htrace2, hurole, husess, hucontent, harole,
          hasess, hacontent, hpquiet, hgfree, hextra, ?_, ?_, ?_⟩
        · rw [htrace2]
          exact countP_assistant_decomposition sessionEvts extraG extra
            P.1.userMessageId
            (freshUuid env (generateCoachResponse env P.2 P.1.context
              P.1.history img).2).1
            P.1.sessionId udoc adoc tstamp hurole harole hpquiet hgfree
            hextra
        · exact hpnone
        · exact hpsome

/-- Witness for C5: a fresh exchange ("merhaba", no prior session) with a
provider that answers "Tabii" persists the user and assistant messages and
updates the session. -/
theorem handleChatMessage_persists_exchange_witness :
    (({ db := {}, trace := [] } : World).trace = []) ∧
    (handleChatMessage
      { geminiApiKey := some "k", coachFn := fun _ => .ok "Tabii",
        summaryFn := fun _ => none, streamChunks := [], streamErr := none,
        parseJson := fun _ => none, uuids := fun _ => "u",
        docIds := fun _ => "d", times := fun _ => 7 }
      { db := {}, trace := [] } { id := "alice" } none "merhaba" none
      none).1 = .ok ⟨"Tabii", "d"⟩ ∧
    ∃ (sessionEvts providerEvts summaryEvts : List ChatEvt)
      (uid aid : String) (udoc adoc : MessageDoc) (tstamp : Nat),
      (handleChatMessage
        { geminiApiKey := some "k", coachFn := fun _ => .ok "Tabii",
          summaryFn := fun _ => none, streamChunks := [], streamErr := none,
          parseJson := fun _ => none, uuids := fun _ => "u",
          docIds := fun _ => "d", times := fun _ => 7 }
        { db := {}, trace := [] } { id := "alice" } none "merhaba" none
        none).2.trace =
        sessionEvts ++ ChatEvt.setMessage uid udoc ::
          (providerEvts ++ ChatEvt.setMessage aid adoc ::
            ChatEvt.mergeSession
              (HandleChatResult.mk "Tabii" "d").sessionId
              { updated_at := some tstamp } ::
            summaryEvts) ∧
      udoc.role = "user" ∧
      udoc.session_id = (HandleChatResult.mk "Tabii" "d").sessionId ∧
      udoc.content = "merhaba" ∧
      adoc.role = "assistant" ∧
      adoc.session_id = (HandleChatResult.mk "Tabii" "d").sessionId ∧
      adoc.content = (HandleChatResult.mk "Tabii" "d").reply ∧
      (∀ e ∈ sessionEvts, e.isQuiet) ∧
      (∀ e ∈ providerEvts, e.isSetMessage = false) ∧
      (∀ e ∈ summaryEvts, e.isQuiet) ∧
      (handleChatMessage
        { geminiApiKey := some "k", coachFn := fun _ => .ok "Tabii",
          summaryFn := fun _ => none, streamChunks := [], streamErr := none,
          parseJson := fun _ => none, uuids := fun _ => "u",
          docIds := fun _ => "d", times := fun _ => 7 }
        { db := {}, trace := [] } { id := "alice" } none "merhaba" none
        none).2.trace.countP ChatEvt.isAssistantWrite = 1 ∧
      ((none : Option String) = none → ∃ sdoc,
        sessionEvts = [ChatEvt.addSession
          (HandleChatResult.mk "Tabii" "d").sessionId sdoc] ∧
        sdoc.status = some "open") ∧
      (∀ sid0, (none : Option String) = some sid0 →
        sessionEvts = [] ∧
        (HandleChatResult.mk "Tabii" "d").sessionId = sid0) :=
  ⟨rfl, rfl, handleChatMessage_persists_exchange
    { geminiApiKey := some "k", coachFn := fun _ => .ok "Tabii",
      summaryFn := fun _ => none, streamChunks := [], streamErr := none,
      parseJson := fun _ => none, uuids := fun _ => "u",
      docIds := fun _ => "d", times := fun _ => 7 }
    { db := {}, trace := [] } { id := "alice" } none "merhaba" none none
    (HandleChatResult.mk "Tabii" "d") rfl rfl⟩

theorem countP_provider_zero (l : List ChatEvt)
    (h : ∀ e ∈ l, e.isProviderReplyCall = false) :
    l.countP ChatEvt.isProviderReplyCall = 0 :=
  List.countP_eq_zero.mpr (fun e he => by simp [h e he])

/-- C8: a message that shouldRefuseCoachRequest rejects is answered with
the fixed refusal text by both the plain and the streaming chat handlers,
no generateContent / streamGenerateContent provider call for a reply is
ever made, the streaming handler pushes the refusal over the websocket as
a final chunk, and in both handlers the refusal is still persisted as an
assistant-role chat message. -/
theorem refused_chat_requests_skip_provider
    (env : ChatEnv) (w : World) (user : UserInfo) (sessionId : Option String)
    (message : String) (ctags : Option ContextTags)
    (img : Option InlineImagePayload)
    (htr : w.trace = [])
    (href : shouldRefuseCoachRequest message = true) :
    (∃ sid, (handleChatMessage env w user sessionId message ctags img).1 =
        .ok ⟨COACH_REFUSAL_MESSAGE, sid⟩) ∧
    (handleChatMessage env w user sessionId message ctags
      img).2.trace.countP ChatEvt.isProviderReplyCall = 0 ∧
    (∃ aid adoc, ChatEvt.setMessage aid adoc ∈
        (handleChatMessage env w user sessionId message ctags img).2.trace ∧
      adoc.role = "assistant" ∧ adoc.content = COACH_REFUSAL_MESSAGE) ∧
    (handleChatMessageStreamRun env w user sessionId message ctags
      img).2.1 = .ok () ∧
    (∃ aid2, ChatEvt.wsSend user.id
        (handleChatMessageStreamRun env w user sessionId message ctags
          img).1.sessionId aid2
        { delta := some COACH_REFUSAL_MESSAGE,
          content := some COACH_REFUSAL_MESSAGE, isFinal := some true } ∈
      (handleChatMessageStreamRun env w user sessionId message ctags
        img).2.2.trace) ∧
    (handleChatMessageStreamRun env w user sessionId message ctags
      img).2.2.trace.countP ChatEvt.isProviderReplyCall = 0 ∧
    (∃ aid adoc, ChatEvt.setMessage aid adoc ∈
        (handleChatMessageStreamRun env w user sessionId message ctags
          img).2.2.trace ∧
      adoc.role = "assistant" ∧ adoc.content = COACH_REFUSAL_MESSAGE) := by
  obtain ⟨sessionEvts, udoc, hptrace, hurole, husess, hucontent, humeta,
    hpquiet, hpnone, hpsome⟩ :=
    prepareChatContext_trace env w user sessionId message ctags
      (img.map (fun p => ({ mimeType := p.mimeType } : ImageMeta)))
  set P := prepareChatContext env w user sessionId message ctags
    (img.map (fun p => ({ mimeType := p.mimeType } : ImageMeta))) with hP
  obtain ⟨adoc, tstamp, extra, hfmain, harole, hasess, hacontent, haid,
    hameta, hextra⟩ :=
    finalizeAndPersist_trace env (freshUuid env P.2).2 user.id
      P.1.sessionId (freshUuid env P.2).1 ctags COACH_REFUSAL_MESSAGE
  have htrace2 : (handleChatMessage env w user sessionId message ctags
      img).2.trace =
      sessionEvts ++ ChatEvt.setMessage P.1.userMessageId udoc ::
        ChatEvt.setMessage (freshUuid env P.2).1 adoc ::
        ChatEvt.mergeSession P.1.sessionId
          { updated_at := some tstamp } :: extra := by
    have hw2 : (handleChatMessage env w user sessionId message ctags
        img).2 = finalizeAndPersist env (freshUuid env P.2).2 user.id
          P.1.sessionId (freshUuid env P.2).1 ctags
          COACH_REFUSAL_MESSAGE := by
      rw [hP]
      simp only [handleChatMessage, href, if_true, freshUuid]
    rw [hw2, hfmain]
    have hfu : ((freshUuid env P.2).2).trace = P.2.trace := rfl
    rw [hfu, hptrace, htr]
    simp
  obtain ⟨adocS, tstampS, extraS, hfmainS, haroleS, hasessS, hacontentS,
    haidS, hametaS, hextraS⟩ :=
    finalizeAndPersist_trace env
      (((freshUuid env P.2).2).pushEvt (.wsSend user.id P.1.sessionId
        (freshUuid env P.2).1
        { delta := some COACH_REFUSAL_MESSAGE,
          content := some COACH_REFUSAL_MESSAGE, isFinal := some true }))
      user.id P.1.sessionId (freshUuid env P.2).1 ctags
      COACH_REFUSAL_MESSAGE
  have hStrace : (handleChatMessageStreamRun env w user sessionId message
      ctags img).2.2.trace =
      sessionEvts ++ ChatEvt.setMessage P.1.userMessageId udoc ::
        ChatEvt.wsSend user.id P.1.sessionId (freshUuid env P.2).1
          { delta := some COACH_REFUSAL_MESSAGE,
            content := some COACH_REFUSAL_MESSAGE, isFinal := some true } ::
        ChatEvt.setMessage (freshUuid env P.2).1 adocS ::
        ChatEvt.mergeSession P.1.sessionId
          { updated_at := some tstampS } :: extraS := by
    have hw2S : (handleChatMessageStreamRun env w user sessionId message
        ctags img).2.2 = finalizeAndPersist env
          (((freshUuid env P.2).2).pushEvt (.wsSend user.id P.1.sessionId
            (freshUuid env P.2).1
            { delta := some COACH_REFUSAL_MESSAGE,
              content := some COACH_REFUSAL_MESSAGE,
              isFinal := some true }))
          user.id P.1.sessionId (freshUuid env P.2).1 ctags
          COACH_REFUSAL_MESSAGE := by
      rw [hP]
      simp only [handleChatMessageStreamRun, href, if_true, freshUuid]
    rw [hw2S, hfmainS]
    have hfu2 : ((((freshUuid env P.2).2).pushEvt (.wsSend user.id
        P.1.sessionId (freshUuid env P.2).1
        { delta := some COACH_REFUSAL_MESSAGE,
          content := some COACH_REFUSAL_MESSAGE,
          isFinal := some true }))).trace =
        P.2.trace ++ [ChatEvt.wsSend user.id P.1.sessionId
          (freshUuid env P.2).1
          { delta := some COACH_REFUSAL_MESSAGE,
            content := some COACH_REFUSAL_MESSAGE,
            isFinal := some true }] := rfl
    rw [hfu2, hptrace, htr]
    simp
  have hSsid : (handleChatMessageStreamRun env w user sessionId message
      ctags img).1.sessionId = P.1.sessionId := by
    rw [hP]
    simp only [handleChatMessageStreamRun, href, if_true, freshUuid]
  refine ⟨⟨P.1.sessionId, ?_⟩, ?_, ⟨(freshUuid env P.2).1, adoc, ?_,
    harole, hacontent⟩, ?_, ⟨(freshUuid env P.2).1, ?_⟩, ?_,
    ⟨(freshUuid env P.2).1, adocS, ?_, haroleS, hacontentS⟩⟩
  · rw [hP]
    simp only [handleChatMessage, href, if_true, freshUuid]
  · rw [htrace2]
    refine countP_provider_zero _ ?_
    intro e he
    simp only [List.mem_append, List.mem_cons] at he
    rcases he with he | he | he | he | he
    · exact (hpquiet e he).2
    · subst he
      rfl
    · subst he
      rfl
    · subst he
      rfl
    · exact (hextra e he).2
  · rw [htrace2]
    simp
  · simp only [handleChatMessageStreamRun, href, if_true, freshUuid]
  · rw [hSsid, hStrace]
    simp
  · rw [hStrace]
    refine countP_provider_zero _ ?_
    intro e he
    simp only [List.mem_append, List.mem_cons] at he
    rcases he with he | he | he | he | he | he
    · exact (hpquiet e he).2
    · subst he
      rfl
    · subst he
      rfl
    · subst he
      rfl
    · subst he
      rfl
    · exact (hextraS e he).2
  · rw [hStrace]
    simp

/-- Witness for C8: "bana bir pdf yap" is refused; both handlers reply
with the refusal text, never call the provider, and persist the refusal. -/
theorem refused_chat_requests_skip_provider_witness :
    (({ db := {}, trace := [] } : World).trace = []) ∧
    shouldRefuseCoachRequest "bana bir pdf yap" = true ∧
    ((∃ sid, (handleChatMessage
        { geminiApiKey := some "k", coachFn := fun _ => .ok "Tabii",
          summaryFn := fun _ => none, streamChunks := [], streamErr := none,
          parseJson := fun _ => none, uuids := fun _ => "u",
          docIds := fun _ => "d", times := fun _ => 7 }
        { db := {}, trace := [] } { id := "alice" } none "bana bir pdf yap"
        none none).1 = .ok ⟨COACH_REFUSAL_MESSAGE, sid⟩) ∧
    (handleChatMessage
      { geminiApiKey := some "k", coachFn := fun _ => .ok "Tabii",
        summaryFn := fun _ => none, streamChunks := [], streamErr := none,
        parseJson := fun _ => none, uuids := fun _ => "u",
        docIds := fun _ => "d", times := fun _ => 7 }
      { db := {}, trace := [] } { id := "alice" } none "bana bir pdf yap"
      none none).2.trace.countP ChatEvt.isProviderReplyCall = 0 ∧
    (∃ aid adoc, ChatEvt.setMessage aid adoc ∈
        (handleChatMessage
          { geminiApiKey := some "k", coachFn := fun _ => .ok "Tabii",
            summaryFn := fun _ => none, streamChunks := [],
            streamErr := none, parseJson := fun _ => none,
            uuids := fun _ => "u", docIds := fun _ => "d",
            times := fun _ => 7 }
          { db := {}, trace := [] } { id := "alice" } none
          "bana bir pdf yap" none none).2.trace ∧
      adoc.role = "assistant" ∧ adoc.content = COACH_REFUSAL_MESSAGE) ∧
    (handleChatMessageStreamRun
      { geminiApiKey := some "k", coachFn := fun _ => .ok "Tabii",
        summaryFn := fun _ => none, streamChunks := [], streamErr := none,
        parseJson := fun _ => none, uuids := fun _ => "u",
        docIds := fun _ => "d", times := fun _ => 7 }
      { db := {}, trace := [] } { id := "alice" } none "bana bir pdf yap"
      none none).2.1 = .ok () ∧
    (∃ aid2, ChatEvt.wsSend "alice"
        (handleChatMessageStreamRun
          { geminiApiKey := some "k", coachFn := fun _ => .ok "Tabii",
            summaryFn := fun _ => none, streamChunks := [],
            streamErr := none, parseJson := fun _ => none,
            uuids := fun _ => "u", docIds := fun _ => "d",
            times := fun _ => 7 }
          { db := {}, trace := [] } { id := "alice" } none
          "bana bir pdf yap" none none).1.sessionId aid2
        { delta := some COACH_REFUSAL_MESSAGE,
          content := some COACH_REFUSAL_MESSAGE, isFinal := some true } ∈
      (handleChatMessageStreamRun
        { geminiApiKey := some "k", coachFn := fun _ => .ok "Tabii",
          summaryFn := fun _ => none, streamChunks := [], streamErr := none,
          parseJson := fun _ => none, uuids := fun _ => "u",
          docIds := fun _ => "d", times := fun _ => 7 }
        { db := {}, trace := [] } { id := "alice" } none "bana bir pdf yap"
        none none).2.2.trace) ∧
    (handleChatMessageStreamRun
      { geminiApiKey := some "k", coachFn := fun _ => .ok "Tabii",
        summaryFn := fun _ => none, streamChunks := [], streamErr := none,
        parseJson := fun _ => none, uuids := fun _ => "u",
        docIds := fun _ => "d", times := fun _ => 7 }
      { db := {}, trace := [] } { id := "alice" } none "bana bir pdf yap"
      none none).2.2.trace.countP ChatEvt.isProviderReplyCall = 0 ∧
    (∃ aid adoc, ChatEvt.setMessage aid adoc ∈
        (handleChatMessageStreamRun
          { geminiApiKey := some "k", coachFn := fun _ => .ok "Tabii",
            summaryFn := fun _ => none, streamChunks := [],
            streamErr := none, parseJson := fun _ => none,
            uuids := fun _ => "u", docIds := fun _ => "d",
            times := fun _ => 7 }
          { db := {}, trace := [] } { id := "alice" } none
          "bana bir pdf yap" none none).2.2.trace ∧
      adoc.role = "assistant" ∧ adoc.content = COACH_REFUSAL_MESSAGE)) :=
  ⟨rfl, by decide, refused_chat_requests_skip_provider
    { geminiApiKey := some "k", coachFn := fun _ => .ok "Tabii",
      summaryFn := fun _ => none, streamChunks := [], streamErr := none,
      parseJson := fun _ => none, uuids := fun _ => "u",
      docIds := fun _ => "d", times := fun _ => 7 }
    { db := {}, trace := [] } { id := "alice" } none "bana bir pdf yap"
    none none rfl (by decide)⟩

end Bebek
